import Mathlib

/-!
# Verification of the timetable generation engine

Shallow embedding of the generation engine of the `timetable` repository
(`src/engine/validator.ts`, `src/engine/labAllocator.ts`,
`src/engine/scheduler.ts`, `src/engine/workloadCalculator.ts`,
`src/store/slices/academicSlice.ts` and the locked constants/types), followed
by theorems settling the frozen claims about it.

Modelling conventions:
* TypeScript strings are `String`, numbers that the code treats as
  nonnegative counts (`capacity`, `totalStudents`, `periodsPerWeek`,
  `semester`, day/period values) are `Nat`.
* `TimetableEntry.id` (a `uuidv4()` call), the derived `slotId` string and
  `createdAt` (a `Date.now()` call) are injected, write-only values: nothing
  in the engine ever reads them, and the only claim that mentions them erases
  them.  The embedding omits these three fields; the injected clock that
  stamps `Timetable.generatedAt` is kept as an explicit `now` parameter.
* `Array.prototype.sort` with an `id.localeCompare` comparator is modelled as
  a stable insertion sort by code-point order on the id strings.
* The workload limits table stores rational numbers so that the fractional
  associate-professor lab limit (1.5) is compared exactly as in the source.
-/

/-! ## Data model (`src/types`) -/

structure Block where
  id : String
  name : String
deriving DecidableEq, Repr, Inhabited

structure Department where
  id : String
  name : String
  blockId : String
deriving DecidableEq, Repr, Inhabited

structure Classroom where
  id : String
  name : String
  capacity : Nat
  departmentId : String
deriving DecidableEq, Repr, Inhabited

structure Lab where
  id : String
  name : String
  capacity : Nat
  departmentId : String
deriving DecidableEq, Repr, Inhabited

structure InfrastructureState where
  blocks : List Block
  departments : List Department
  classrooms : List Classroom
  labs : List Lab
deriving DecidableEq, Repr, Inhabited

inductive SubjectType where
  | THEORY
  | LAB
  | MANDATORY
  | OPEN_ELECTIVE
  | LIBRARY
deriving DecidableEq, Repr, Inhabited

structure Subject where
  id : String
  name : String
  code : String
  type : SubjectType
  periodsPerWeek : Nat
  departmentId : String
  semester : Nat
deriving DecidableEq, Repr, Inhabited

structure SubBatch where
  id : String
  name : String
  studentCount : Nat
deriving DecidableEq, Repr, Inhabited

structure Batch where
  id : String
  name : String
  semester : Nat
  «section» : String
  departmentId : String
  totalStudents : Nat
  subBatches : List SubBatch
deriving DecidableEq, Repr, Inhabited

inductive FacultyDesignation where
  | PROFESSOR
  | ASSOCIATE_PROFESSOR
  | ASSISTANT_PROFESSOR
deriving DecidableEq, Repr, Inhabited

structure Faculty where
  id : String
  name : String
  employeeId : String
  designation : FacultyDesignation
  departmentId : String
  assignedTheorySubjects : List String
  assignedLabSubjects : List String
deriving DecidableEq, Repr, Inhabited

structure AcademicState where
  batches : List Batch
  subjects : List Subject
  faculty : List Faculty
deriving DecidableEq, Repr, Inhabited

/-- Lab slot label `'A' | 'B'`. -/
inductive LabSlotName where
  | A
  | B
deriving DecidableEq, Repr, Inhabited

/-- `TimetableEntry` of `src/types/timetable.ts` without the write-only
injected fields `id`, `slotId` and `createdAt` (see module docstring). -/
structure TimetableEntry where
  day : Nat
  period : Nat
  subjectId : String
  facultyId : String
  roomId : String
  batchId : String
  subBatchId : Option String
  isLabSession : Bool
  labSlot : Option LabSlotName
deriving DecidableEq, Repr, Inhabited

/-- `Timetable` without the injected uuid `id` field. -/
structure Timetable where
  batchId : String
  entries : List TimetableEntry
  generatedAt : Nat
  isValid : Bool
deriving DecidableEq, Repr, Inhabited

structure LabRotation where
  batchId : String
  subBatchId : String
  sessionNumber : Nat
  labId : String
deriving DecidableEq, Repr, Inhabited

inductive ExplanationLevel where
  | INFO
  | WARNING
  | ERROR
deriving DecidableEq, Repr, Inhabited

inductive ExplanationSource where
  | VALIDATOR
  | LAB_ALLOCATOR
  | SCHEDULER
  | WORKLOAD
deriving DecidableEq, Repr, Inhabited

structure Explanation where
  level : ExplanationLevel
  source : ExplanationSource
  message : String
  relatedEntityId : Option String := none
  step : Option Nat := none
deriving DecidableEq, Repr, Inhabited

structure GenerationResult where
  success : Bool
  timetable : Option Timetable
  explanations : List Explanation
deriving DecidableEq, Repr, Inhabited

/-! ## Locked constants (`src/constants/timeStructure.ts`) -/

def LAB_SLOT_A : List Nat := [2, 3, 4]

def LAB_SLOT_B : List Nat := [5, 6, 7]

def WORKING_DAYS : List Nat := [0, 1, 2, 3, 4, 5]

def MIN_LAB_SESSIONS_PER_WEEK : Nat := 2

/-- Workload limits by designation (`FACULTY_WORKLOAD_LIMITS` in
`src/types/academic.ts`).  Rational-valued so that the associate-professor
lab limit is the exact fraction `1.5`. -/
structure WorkloadLimits where
  theoryPeriods : ℚ
  labSessions : ℚ
deriving DecidableEq, Repr, Inhabited

def FACULTY_WORKLOAD_LIMITS : FacultyDesignation → WorkloadLimits
  | .PROFESSOR => { theoryPeriods := 5, labSessions := 1 }
  | .ASSOCIATE_PROFESSOR => { theoryPeriods := 5, labSessions := mkRat 3 2 }
  | .ASSISTANT_PROFESSOR => { theoryPeriods := 10, labSessions := 2 }

/-! ## Generic helpers -/

/-- Code-point comparison of char lists, giving the string order used to
model `localeCompare` (the two coincide on the ASCII identifiers of this
data model). -/
def charListLe : List Char → List Char → Bool
  | [], _ => true
  | _ :: _, [] => false
  | a :: as, b :: bs =>
    if a.val < b.val then true
    else if b.val < a.val then false
    else charListLe as bs

def strLe (a b : String) : Bool :=
  charListLe a.data b.data

/-- Stable sort by id, the model of
`[...xs].sort((a, b) => a.id.localeCompare(b.id))`. -/
def sortOn {α : Type} (key : α → String) (l : List α) : List α :=
  l.insertionSort fun a b => strLe (key a) (key b) = true

/-! ## Workload calculator (`src/engine/workloadCalculator.ts`) -/

structure WorkloadStats where
  facultyId : String
  facultyName : String
  designation : FacultyDesignation
  theoryPeriods : Nat
  theoryLimit : ℚ
  labSessions : Nat
  labLimit : ℚ
  isOverloaded : Bool
deriving DecidableEq, Repr, Inhabited

/-- Count of non-lab entries assigned to the faculty member. -/
def theoryPeriodCount (fid : String) (entries : List TimetableEntry) : Nat :=
  (entries.filter fun e => e.facultyId == fid && !e.isLabSession).length

/-- Number of distinct `(day, labSlot)` keys among the faculty member's lab
entries; the model of the `Set` of `` `${e.day}-${e.labSlot}` `` strings
(distinct strings correspond exactly to distinct pairs). -/
def labSessionCount (fid : String) (entries : List TimetableEntry) : Nat :=
  (((entries.filter fun e => e.facultyId == fid && e.isLabSession).map
      fun e => (e.day, e.labSlot)).dedup).length

/-- The stats record pushed for one faculty member inside
`calculateWorkload`'s `forEach`. -/
def statFor (entries : List TimetableEntry) (f : Faculty) : WorkloadStats :=
  let limits := FACULTY_WORKLOAD_LIMITS f.designation
  let theoryPeriods := theoryPeriodCount f.id entries
  let labSessions := labSessionCount f.id entries
  { facultyId := f.id
    facultyName := f.name
    designation := f.designation
    theoryPeriods := theoryPeriods
    theoryLimit := limits.theoryPeriods
    labSessions := labSessions
    labLimit := limits.labSessions
    isOverloaded :=
      decide ((theoryPeriods : ℚ) > limits.theoryPeriods) ||
        decide ((labSessions : ℚ) > limits.labSessions) }

def calculateWorkload (faculty : List Faculty) (_subjects : List Subject)
    (entries : List TimetableEntry) : List WorkloadStats :=
  (sortOn Faculty.id faculty).map (statFor entries)

def validateWorkload (faculty : List Faculty) (subjects : List Subject)
    (entries : List TimetableEntry) : List Explanation :=
  let stats := calculateWorkload faculty subjects entries
  stats.foldl
    (fun explanations stat =>
      let explanations :=
        if (stat.theoryPeriods : ℚ) > stat.theoryLimit then
          explanations ++
            [{ level := .ERROR, source := .WORKLOAD
               message := s!"{stat.facultyName} has {stat.theoryPeriods} theory periods, exceeds limit."
               relatedEntityId := some stat.facultyId, step := some 8 }]
        else explanations
      let explanations :=
        if (stat.labSessions : ℚ) > stat.labLimit then
          explanations ++
            [{ level := .ERROR, source := .WORKLOAD
               message := s!"{stat.facultyName} has {stat.labSessions} lab sessions, exceeds limit."
               relatedEntityId := some stat.facultyId, step := some 8 }]
        else explanations
      if !stat.isOverloaded then
        explanations ++
          [{ level := .INFO, source := .WORKLOAD
             message := s!"{stat.facultyName}: workload within limits."
             relatedEntityId := some stat.facultyId, step := some 8 }]
      else explanations)
    []

def hasWorkloadViolation (faculty : List Faculty) (subjects : List Subject)
    (entries : List TimetableEntry) : Bool :=
  (calculateWorkload faculty subjects entries).any fun s => s.isOverloaded

/-! ## Sub-batch splitting (`calculateSubBatches` in
`src/store/slices/academicSlice.ts`).  The uuid `id` of each created
sub-batch is injected (`uuidv4()`); the model uses `""`. -/

/-- The `for (let i = 0; i < numSubBatches; i++)` loop: `k` iterations
remain, `i` is the current index, `remaining` the remaining students. -/
def subBatchLoop (labCapacity : Nat) : Nat → Nat → Nat → List SubBatch
  | 0, _, _ => []
  | k + 1, i, remaining =>
    let count := min labCapacity remaining
    { id := "", name := s!"A{i + 1}", studentCount := count } ::
      subBatchLoop labCapacity k (i + 1) (remaining - count)

def calculateSubBatches (totalStudents labCapacity : Nat) : List SubBatch :=
  if labCapacity ≥ totalStudents then
    [{ id := "", name := "A", studentCount := totalStudents }]
  else
    let numSubBatches := (totalStudents + labCapacity - 1) / labCapacity
    subBatchLoop labCapacity numSubBatches 0 totalStudents

/-- Helper building an `Explanation`; arguments in the order
level, source, relatedEntityId, step, message. -/
def expl (level : ExplanationLevel) (source : ExplanationSource)
    (relatedEntityId : Option String) (step : Option Nat)
    (message : String) : Explanation :=
  { level, source, message, relatedEntityId, step }

/-! ## Validator (`src/engine/validator.ts`) -/

structure ValidationResult where
  isValid : Bool
  explanations : List Explanation
deriving DecidableEq, Repr, Inhabited

def validateInfrastructure (state : InfrastructureState) : List Explanation :=
  let errors : List Explanation := []
  let errors := if state.blocks.length = 0 then
    errors ++ [expl .ERROR .VALIDATOR none (some 1)
      "No blocks defined. At least one block is required."]
    else errors
  let errors := if state.departments.length = 0 then
    errors ++ [expl .ERROR .VALIDATOR none (some 1)
      "No departments defined. At least one department is required."]
    else errors
  let errors := if state.classrooms.length = 0 then
    errors ++ [expl .ERROR .VALIDATOR none (some 1)
      "No classrooms defined. At least one classroom is required."]
    else errors
  let errors := state.classrooms.foldl
    (fun errors classroom =>
      if classroom.capacity ≤ 0 then
        let cname := classroom.name
        errors ++ [expl .ERROR .VALIDATOR (some classroom.id) (some 1)
          s!"Classroom \"{cname}\" has invalid capacity. Capacity must be > 0."]
      else errors) errors
  let errors := if state.labs.length = 0 then
    errors ++ [expl .ERROR .VALIDATOR none (some 1)
      "No labs defined. At least one lab is required."]
    else errors
  state.labs.foldl
    (fun errors lab =>
      if lab.capacity ≤ 0 then
        let lname := lab.name
        errors ++ [expl .ERROR .VALIDATOR (some lab.id) (some 1)
          s!"Lab \"{lname}\" has invalid capacity. Capacity must be > 0."]
      else errors) errors

def validateAcademic (academic : AcademicState)
    (infrastructure : InfrastructureState) : List Explanation :=
  let errors : List Explanation := []
  let errors := if academic.batches.length = 0 then
    errors ++ [expl .ERROR .VALIDATOR none (some 1)
      "No batches defined. At least one batch is required."]
    else errors
  let errors := academic.batches.foldl
    (fun errors batch =>
      let bname := batch.name
      let errors :=
        if batch.totalStudents ≤ 0 then
          errors ++ [expl .ERROR .VALIDATOR (some batch.id) (some 1)
            s!"Batch \"{bname}\" has invalid student count."]
        else errors
      match infrastructure.departments.find? (fun d => d.id == batch.departmentId) with
      | some _ => errors
      | none =>
          errors ++ [expl .ERROR .VALIDATOR (some batch.id) (some 1)
            s!"Batch \"{bname}\" references non-existent department."]) errors
  let errors := if academic.subjects.length = 0 then
    errors ++ [expl .ERROR .VALIDATOR none (some 1)
      "No subjects defined. At least one subject is required."]
    else errors
  let labSubjects := academic.subjects.filter fun s => decide (s.type = .LAB)
  let errors := if labSubjects.length = 0 then
    errors ++ [expl .WARNING .VALIDATOR none (some 1)
      "No lab subjects defined. Students need at least 2 lab sessions per week."]
    else errors
  if academic.faculty.length = 0 then
    errors ++ [expl .ERROR .VALIDATOR none (some 1)
      "No faculty defined. At least one faculty is required."]
  else errors

def validateFacultyWorkload (faculty : List Faculty)
    (subjects : List Subject) : List Explanation :=
  faculty.foldl
    (fun errors f =>
      let limits := FACULTY_WORKLOAD_LIMITS f.designation
      let theoryPeriods : Nat := f.assignedTheorySubjects.foldl
        (fun acc subjectId =>
          match subjects.find? (fun s => s.id == subjectId) with
          | some subject => acc + subject.periodsPerWeek
          | none => acc) 0
      let fname := f.name
      let errors :=
        if (theoryPeriods : ℚ) > limits.theoryPeriods then
          errors ++ [expl .ERROR .WORKLOAD (some f.id) (some 8)
            s!"{fname} has {theoryPeriods} theory periods assigned, exceeds limit."]
        else errors
      let labSessions := f.assignedLabSubjects.length
      if (labSessions : ℚ) > limits.labSessions then
        errors ++ [expl .ERROR .WORKLOAD (some f.id) (some 8)
          s!"{fname} has {labSessions} lab sessions assigned, exceeds limit."]
      else errors) []

def validateSubjectAssignments (subjects : List Subject)
    (faculty : List Faculty) : List Explanation :=
  subjects.foldl
    (fun errors subject =>
      let assigned :=
        if subject.type = .LAB then
          faculty.any fun f => f.assignedLabSubjects.contains subject.id
        else
          faculty.any fun f => f.assignedTheorySubjects.contains subject.id
      if !assigned then
        let sname := subject.name
        errors ++ [expl .ERROR .VALIDATOR (some subject.id) (some 1)
          s!"Subject \"{sname}\" has no faculty assigned."]
      else errors) []

def validateAll (infrastructure : InfrastructureState)
    (academic : AcademicState) : ValidationResult :=
  let explanations := validateInfrastructure infrastructure
  let explanations := explanations ++ validateAcademic academic infrastructure
  let explanations := explanations ++
    (if academic.subjects.length > 0 ∧ academic.faculty.length > 0 then
      validateSubjectAssignments academic.subjects academic.faculty
    else [])
  let explanations := explanations ++
    (if academic.faculty.length > 0 ∧ academic.subjects.length > 0 then
      validateFacultyWorkload academic.faculty academic.subjects
    else [])
  let hasErrors := explanations.any fun e => decide (e.level = .ERROR)
  { isValid := !hasErrors, explanations }

/-! ## Lab allocator (`src/engine/labAllocator.ts`) -/

def isFacultyAvailableForSlot (entries : List TimetableEntry) (facultyId : String)
    (day : Nat) (periods : List Nat) : Bool :=
  !(periods.any fun period =>
    entries.any fun e => e.facultyId == facultyId && e.day == day && e.period == period)

structure LabAllocationResult where
  entries : List TimetableEntry
  rotations : List LabRotation
  explanations : List Explanation
  success : Bool
deriving DecidableEq, Repr, Inhabited

structure LabSession where
  day : Nat
  slot : LabSlotName
  periods : List Nat
deriving DecidableEq, Repr, Inhabited

def getAvailableLabSlots (existingEntries : List TimetableEntry)
    (batchId : String) : List LabSession :=
  WORKING_DAYS.foldl
    (fun slots day =>
      let slotAUsed := LAB_SLOT_A.any fun period =>
        existingEntries.any fun e =>
          e.batchId == batchId && e.day == day && e.period == period
      let slots := if !slotAUsed then
          slots ++ [{ day, slot := .A, periods := LAB_SLOT_A }] else slots
      let slotBUsed := LAB_SLOT_B.any fun period =>
        existingEntries.any fun e =>
          e.batchId == batchId && e.day == day && e.period == period
      if !slotBUsed then slots ++ [{ day, slot := .B, periods := LAB_SLOT_B }] else slots)
    []

def mkLabEntry (batch : Batch) (subject : Subject) (facultyId roomId : String)
    (subBatchId : Option String) (day period : Nat)
    (slotName : LabSlotName) : TimetableEntry :=
  { day, period, subjectId := subject.id, facultyId, roomId, batchId := batch.id,
    subBatchId, isLabSession := true, labSlot := some slotName }

/-- One iteration of the `sortedSubBatches.forEach` in `allocateLabsForBatch`
(the parallel-lab branch).  `p` is the `(subBatchIndex, subBatch)` pair. -/
def labSubBatchStep (batch : Batch) (subject : Subject) (slot : LabSession)
    (deptLabs : List Lab) (labFaculty : List Faculty)
    (existingEntries : List TimetableEntry) (existingRotations : List LabRotation)
    (sessionNumber : Nat)
    (acc : List TimetableEntry × List LabRotation × List Explanation)
    (p : Nat × SubBatch) :
    List TimetableEntry × List LabRotation × List Explanation :=
  let (entries, rotations, explanations) := acc
  let (subBatchIndex, subBatch) := p
  let previousRotation := existingRotations.find? fun r =>
    r.batchId == batch.id && r.subBatchId == subBatch.id
  let labIndex :=
    match previousRotation with
    | some prev =>
      -- `findIndex` returns -1 when absent, and (-1 + 1) % n = 0
      match deptLabs.findIdx? (fun l => l.id == prev.labId) with
      | some prevLabIndex => (prevLabIndex + 1) % deptLabs.length
      | none => 0
    | none => subBatchIndex % deptLabs.length
  let lab := deptLabs.getD labIndex default
  let candidateFaculty := labFaculty.getD (subBatchIndex % labFaculty.length) default
  let currentEntriesForCheck := existingEntries ++ entries
  let assignedFaculty :=
    if isFacultyAvailableForSlot currentEntriesForCheck candidateFaculty.id
        slot.day slot.periods then
      some candidateFaculty
    else
      labFaculty.find? fun f =>
        isFacultyAvailableForSlot currentEntriesForCheck f.id slot.day slot.periods
  match assignedFaculty with
  | none =>
    let sname := subject.name
    let sbname := subBatch.name
    (entries, rotations, explanations ++ [expl .WARNING .LAB_ALLOCATOR
      (some subject.id) (some 3)
      s!"No available faculty for {sname} sub-batch {sbname}."])
  | some f =>
    let newEntries := slot.periods.map fun period =>
      mkLabEntry batch subject f.id lab.id (some subBatch.id) slot.day period slot.slot
    let sname := subject.name
    let bname := batch.name
    let sbname := subBatch.name
    let lname := lab.name
    (entries ++ newEntries,
     rotations ++ [{ batchId := batch.id, subBatchId := subBatch.id,
                     sessionNumber := sessionNumber, labId := lab.id }],
     explanations ++ [expl .INFO .LAB_ALLOCATOR (some batch.id) (some 3)
       s!"Allocated {sname} for {bname}-{sbname} in {lname}."])

structure LabLoopState where
  entries : List TimetableEntry
  rotations : List LabRotation
  explanations : List Explanation
  sessionNumber : Nat
  usedSlots : List (Nat × LabSlotName)
  subjectIndex : Nat
deriving DecidableEq, Repr, Inhabited

/-- The main `while` loop of `allocateLabsForBatch`.  The fuel argument only
bounds recursion depth: every recursive call is preceded by adding a fresh
`(day, slot)` key (checked absent by the `find?` predicate) to `usedSlots`,
and all keys come from the 12-element space `WORKING_DAYS × {A, B}`, so 13
units of fuel are never exhausted. -/
def labLoop (batch : Batch) (sortedLabSubjects : List Subject) (deptLabs : List Lab)
    (faculty : List Faculty) (existingEntries : List TimetableEntry)
    (existingRotations : List LabRotation) :
    Nat → LabLoopState → LabLoopState
  | 0, st => st
  | fuel + 1, st =>
    if st.subjectIndex < sortedLabSubjects.length ∧
        st.sessionNumber < max sortedLabSubjects.length MIN_LAB_SESSIONS_PER_WEEK then
      let currentEntries := existingEntries ++ st.entries
      let availableSlots := getAvailableLabSlots currentEntries batch.id
      match availableSlots.find? (fun s => !st.usedSlots.contains (s.day, s.slot)) with
      | none => st
      | some slot =>
        let st1 := { st with usedSlots := st.usedSlots ++ [(slot.day, slot.slot)] }
        let subject :=
          sortedLabSubjects.getD (st1.subjectIndex % sortedLabSubjects.length) default
        let labFaculty := sortOn Faculty.id
          (faculty.filter fun f => f.assignedLabSubjects.contains subject.id)
        if labFaculty.length = 0 then
          let sname := subject.name
          labLoop batch sortedLabSubjects deptLabs faculty existingEntries existingRotations
            fuel
            { st1 with explanations := st1.explanations ++
                [expl .ERROR .LAB_ALLOCATOR (some subject.id) (some 3)
                  s!"No faculty assigned to lab subject \"{sname}\"."] }
        else
          let st2 :=
            if batch.subBatches.length > 1 then
              let sortedSubBatches := sortOn SubBatch.id batch.subBatches
              let (entries, rotations, explanations) :=
                (sortedSubBatches.enum).foldl
                  (labSubBatchStep batch subject slot deptLabs labFaculty
                    existingEntries existingRotations st1.sessionNumber)
                  (st1.entries, st1.rotations, st1.explanations)
              { st1 with entries, rotations, explanations }
            else
              let lab := deptLabs.getD 0 default
              let assignedFaculty := labFaculty.getD 0 default
              let newEntries := slot.periods.map fun period =>
                mkLabEntry batch subject assignedFaculty.id lab.id none
                  slot.day period slot.slot
              let sname := subject.name
              let bname := batch.name
              let lname := lab.name
              { st1 with
                entries := st1.entries ++ newEntries
                explanations := st1.explanations ++
                  [expl .INFO .LAB_ALLOCATOR (some batch.id) (some 3)
                    s!"Allocated {sname} for {bname} in {lname}."] }
          let st3 := { st2 with sessionNumber := st2.sessionNumber + 1,
                                subjectIndex := st2.subjectIndex + 1 }
          if st3.sessionNumber ≥ MIN_LAB_SESSIONS_PER_WEEK ∧
              st3.subjectIndex ≥ sortedLabSubjects.length then
            st3
          else
            labLoop batch sortedLabSubjects deptLabs faculty existingEntries
              existingRotations fuel st3
    else st

def labMsgNoSubjects (bname : String) : String :=
  s!"No lab subjects found for batch \"{bname}\"."

def labMsgNoLabs (bname : String) : String :=
  s!"No labs available for batch \"{bname}\" in its department."

def labMsgNotEnoughSlots (bname : String) : String :=
  s!"Not enough lab slots available for batch \"{bname}\"."

def allocateLabsForBatch (batch : Batch) (labSubjects : List Subject)
    (labs : List Lab) (faculty : List Faculty)
    (existingEntries : List TimetableEntry)
    (existingRotations : List LabRotation) : LabAllocationResult :=
  let bname := batch.name
  let sortedLabSubjects := sortOn Subject.id (labSubjects.filter fun s =>
    s.departmentId == batch.departmentId && s.semester == batch.semester)
  if sortedLabSubjects.length = 0 then
    { entries := [], rotations := [],
      explanations := [expl .ERROR .LAB_ALLOCATOR (some batch.id) (some 3)
        (labMsgNoSubjects bname)],
      success := false }
  else
    let deptLabs := sortOn Lab.id (labs.filter fun l =>
      l.departmentId == batch.departmentId)
    if deptLabs.length = 0 then
      { entries := [], rotations := [],
        explanations := [expl .ERROR .LAB_ALLOCATOR (some batch.id) (some 3)
          (labMsgNoLabs bname)],
        success := false }
    else
      let availableSlots := getAvailableLabSlots existingEntries batch.id
      if availableSlots.length < MIN_LAB_SESSIONS_PER_WEEK then
        { entries := [], rotations := [],
          explanations := [expl .ERROR .LAB_ALLOCATOR (some batch.id) (some 3)
            (labMsgNotEnoughSlots bname)],
          success := false }
      else
        let st := labLoop batch sortedLabSubjects deptLabs faculty existingEntries
          existingRotations 13
          { entries := [], rotations := [], explanations := [],
            sessionNumber := 0, usedSlots := [], subjectIndex := 0 }
        if st.sessionNumber < MIN_LAB_SESSIONS_PER_WEEK then
          { entries := st.entries, rotations := st.rotations,
            explanations := st.explanations ++
              [expl .ERROR .LAB_ALLOCATOR (some batch.id) (some 3)
                s!"Could only allocate {st.sessionNumber} lab sessions for batch \"{bname}\"."],
            success := false }
        else
          { entries := st.entries, rotations := st.rotations,
            explanations := st.explanations, success := true }

/-! ## Scheduler (`src/engine/scheduler.ts`) -/

def isSlotAvailable (entries : List TimetableEntry) (batchId : String)
    (day period : Nat) : Bool :=
  !(entries.any fun e => e.batchId == batchId && e.day == day && e.period == period)

def isFacultyAvailable (entries : List TimetableEntry) (facultyId : String)
    (day period : Nat) : Bool :=
  !(entries.any fun e => e.facultyId == facultyId && e.day == day && e.period == period)

def isRoomAvailable (entries : List TimetableEntry) (roomId : String)
    (day period : Nat) : Bool :=
  !(entries.any fun e => e.roomId == roomId && e.day == day && e.period == period)

def placeTheoryEntry (batch : Batch) (subject : Subject)
    (facultyId classroomId : String) (day period : Nat) : TimetableEntry :=
  { day, period, subjectId := subject.id, facultyId, roomId := classroomId,
    batchId := batch.id, subBatchId := none, isLabSession := false, labSlot := none }

/-- Step 4 allowed days (Monday, Tuesday). -/
def mandatoryAllowedDays : List Nat := [0, 1]

/-- One iteration of the `mandatorySubjects.forEach` in
`placeMandatorySubjects`; `p` is the `(index, subject)` pair. -/
def mandatoryStep (batch : Batch) (faculty : List Faculty)
    (classrooms : List Classroom) (existingEntries : List TimetableEntry)
    (acc : List TimetableEntry × List Explanation) (p : Nat × Subject) :
    List TimetableEntry × List Explanation :=
  let (entries, explanations) := acc
  let (index, subject) := p
  let sname := subject.name
  if index ≥ mandatoryAllowedDays.length then
    (entries, explanations ++ [expl .WARNING .SCHEDULER (some subject.id) (some 4)
      s!"Cannot place mandatory subject \"{sname}\" - no available slots (Period 3, Mon/Tue)."])
  else
    let day := mandatoryAllowedDays.getD index 0
    let period := 3
    let combinedEntries := existingEntries ++ entries
    if !(isSlotAvailable combinedEntries batch.id day period) then
      (entries, explanations ++ [expl .WARNING .SCHEDULER (some subject.id) (some 4)
        s!"Slot for mandatory \"{sname}\" (Day {day + 1}, Period 3) is occupied."])
    else
      match (sortOn Faculty.id (faculty.filter fun f =>
          f.assignedTheorySubjects.contains subject.id)).head? with
      | none =>
        (entries, explanations ++ [expl .ERROR .SCHEDULER (some subject.id) (some 4)
          s!"No faculty assigned to mandatory subject \"{sname}\"."])
      | some assignedFaculty =>
        if !(isFacultyAvailable combinedEntries assignedFaculty.id day period) then
          let fname := assignedFaculty.name
          (entries, explanations ++ [expl .WARNING .SCHEDULER (some subject.id) (some 4)
            s!"Faculty \"{fname}\" is unavailable for mandatory \"{sname}\" (Day {day + 1}, Period 3)."])
        else
          match (sortOn Classroom.id (classrooms.filter fun c =>
              c.departmentId == batch.departmentId &&
                decide (batch.totalStudents ≤ c.capacity))).find?
              (fun c => isRoomAvailable combinedEntries c.id day period) with
          | none =>
            let bname := batch.name
            (entries, explanations ++ [expl .ERROR .SCHEDULER (some batch.id) (some 4)
              s!"No available classroom with sufficient capacity for batch \"{bname}\" at Day {day + 1}, Period 3."])
          | some classroom =>
            (entries ++ [placeTheoryEntry batch subject assignedFaculty.id classroom.id day period],
             explanations ++ [expl .INFO .SCHEDULER (some subject.id) (some 4)
               s!"Placed mandatory \"{sname}\" on Day {day + 1}, Period 3."])

def placeMandatorySubjects (batch : Batch) (subjects : List Subject)
    (faculty : List Faculty) (classrooms : List Classroom)
    (existingEntries : List TimetableEntry) :
    List TimetableEntry × List Explanation :=
  let mandatorySubjects := sortOn Subject.id (subjects.filter fun s =>
    decide (s.type = .MANDATORY) && s.departmentId == batch.departmentId &&
      s.semester == batch.semester)
  (mandatorySubjects.enum).foldl
    (mandatoryStep batch faculty classrooms existingEntries) ([], [])

/-- Step 5 eligible periods (period 1 reserved for electives, 3 for
mandatory, 8 excluded). -/
def theoryEligiblePeriods : List Nat := [2, 4, 5, 6, 7]

/-- The inner `while` loop of `distributeTheorySubjects`.  Arguments after
the fixed ones: remaining attempts (`maxAttempts - attempts`), `placedCount`,
`periodIndex`, `dayIndex`, accumulated phase entries; returns the entries,
the final `placedCount` and the final `dayIndex`. -/
def theoryLoop (batch : Batch) (subject : Subject)
    (facultyId classroomId : String) (existingEntries : List TimetableEntry)
    (periodsToPlace : Nat) :
    Nat → Nat → Nat → Nat → List TimetableEntry →
    List TimetableEntry × Nat × Nat
  | 0, placedCount, _, dayIndex, entries => (entries, placedCount, dayIndex)
  | fuel + 1, placedCount, periodIndex, dayIndex, entries =>
    if placedCount ≥ periodsToPlace then (entries, placedCount, dayIndex)
    else
      let sortedDays := WORKING_DAYS
      let day := sortedDays.getD (dayIndex % sortedDays.length) 0
      let period := theoryEligiblePeriods.getD
        (periodIndex % theoryEligiblePeriods.length) 0
      let combinedEntries := existingEntries ++ entries
      let next :=
        if isSlotAvailable combinedEntries batch.id day period &&
            isFacultyAvailable combinedEntries facultyId day period &&
            isRoomAvailable combinedEntries classroomId day period then
          (entries ++ [placeTheoryEntry batch subject facultyId classroomId day period],
           placedCount + 1, dayIndex + 1)
        else (entries, placedCount, dayIndex)
      let (entries, placedCount, dayIndex) := next
      let periodIndex := periodIndex + 1
      let dayIndex :=
        if periodIndex % theoryEligiblePeriods.length = 0 then dayIndex + 1 else dayIndex
      theoryLoop batch subject facultyId classroomId existingEntries periodsToPlace
        fuel placedCount periodIndex dayIndex entries

/-- One iteration of the `theorySubjects.forEach` in
`distributeTheorySubjects`; the accumulator carries the phase entries, the
explanations and the shared `globalDayIndex`. -/
def theoryStep (batch : Batch) (faculty : List Faculty)
    (classrooms : List Classroom) (existingEntries : List TimetableEntry)
    (acc : List TimetableEntry × List Explanation × Nat) (subject : Subject) :
    List TimetableEntry × List Explanation × Nat :=
  let (entries, explanations, globalDayIndex) := acc
  let periodsToPlace := subject.periodsPerWeek
  let sname := subject.name
  match (sortOn Faculty.id (faculty.filter fun f =>
      f.assignedTheorySubjects.contains subject.id)).head? with
  | none =>
    (entries, explanations ++ [expl .ERROR .SCHEDULER (some subject.id) (some 5)
      s!"No faculty assigned to theory subject \"{sname}\"."], globalDayIndex)
  | some assignedFaculty =>
    match (sortOn Classroom.id (classrooms.filter fun c =>
        c.departmentId == batch.departmentId &&
          decide (batch.totalStudents ≤ c.capacity))).head? with
    | none => (entries, explanations, globalDayIndex)
    | some classroom =>
      let maxAttempts := WORKING_DAYS.length * theoryEligiblePeriods.length * 2
      let r := theoryLoop batch subject assignedFaculty.id classroom.id
        existingEntries periodsToPlace maxAttempts 0 0 globalDayIndex entries
      let (entries, placedCount, dayIndex) := r
      let globalDayIndex := dayIndex
      if placedCount < periodsToPlace then
        (entries, explanations ++ [expl .WARNING .SCHEDULER (some subject.id) (some 5)
          s!"Could only place {placedCount}/{periodsToPlace} periods for \"{sname}\"."],
         globalDayIndex)
      else
        (entries, explanations ++ [expl .INFO .SCHEDULER (some subject.id) (some 5)
          s!"Placed {placedCount} periods for theory \"{sname}\"."], globalDayIndex)

def distributeTheorySubjects (batch : Batch) (subjects : List Subject)
    (faculty : List Faculty) (classrooms : List Classroom)
    (existingEntries : List TimetableEntry) :
    List TimetableEntry × List Explanation :=
  let theorySubjects := sortOn Subject.id (subjects.filter fun s =>
    decide (s.type = .THEORY) && s.departmentId == batch.departmentId &&
      s.semester == batch.semester)
  let r := theorySubjects.foldl
    (theoryStep batch faculty classrooms existingEntries) ([], [], 0)
  (r.1, r.2.1)

/-- Step 6 allowed days (Monday, Tuesday, Wednesday). -/
def electiveAllowedDays : List Nat := [0, 1, 2]

/-- One iteration of the `openElectives.forEach` in `placeOpenElectives`;
`p` is the `(index, subject)` pair.  Note the two silent skips of the
source (no assigned faculty / no classroom found): they add neither an
entry nor an explanation. -/
def electiveStep (batch : Batch) (faculty : List Faculty)
    (classrooms : List Classroom) (existingEntries : List TimetableEntry)
    (acc : List TimetableEntry × List Explanation) (p : Nat × Subject) :
    List TimetableEntry × List Explanation :=
  let (entries, explanations) := acc
  let (index, subject) := p
  let sname := subject.name
  if index ≥ electiveAllowedDays.length then
    (entries, explanations ++ [expl .WARNING .SCHEDULER (some subject.id) (some 6)
      s!"Cannot place open elective \"{sname}\" - no available slots (Period 1, Mon-Wed)."])
  else
    let day := electiveAllowedDays.getD index 0
    let period := 1
    let combinedEntries := existingEntries ++ entries
    if !(isSlotAvailable combinedEntries batch.id day period) then
      (entries, explanations ++ [expl .WARNING .SCHEDULER (some subject.id) (some 6)
        s!"Slot for open elective \"{sname}\" (Day {day + 1}, Period 1) is occupied."])
    else
      match (sortOn Faculty.id (faculty.filter fun f =>
          f.assignedTheorySubjects.contains subject.id)).head? with
      | none => (entries, explanations)
      | some assignedFaculty =>
        if !(isFacultyAvailable combinedEntries assignedFaculty.id day period) then
          (entries, explanations ++ [expl .WARNING .SCHEDULER (some subject.id) (some 6)
            s!"Faculty unavailable for open elective \"{sname}\" (Day {day + 1}, Period 1)."])
        else
          match (sortOn Classroom.id (classrooms.filter fun c =>
              c.departmentId == batch.departmentId)).find?
              (fun c => isRoomAvailable combinedEntries c.id day period) with
          | none => (entries, explanations)
          | some classroom =>
            (entries ++ [placeTheoryEntry batch subject assignedFaculty.id classroom.id day period],
             explanations ++ [expl .INFO .SCHEDULER (some subject.id) (some 6)
               s!"Placed open elective \"{sname}\" on Day {day + 1}, Period 1."])

def placeOpenElectives (batch : Batch) (subjects : List Subject)
    (faculty : List Faculty) (classrooms : List Classroom)
    (existingEntries : List TimetableEntry) :
    List TimetableEntry × List Explanation :=
  let openElectives := sortOn Subject.id (subjects.filter fun s =>
    decide (s.type = .OPEN_ELECTIVE) && s.departmentId == batch.departmentId &&
      s.semester == batch.semester)
  (openElectives.enum).foldl
    (electiveStep batch faculty classrooms existingEntries) ([], [])

/-- Step 7 candidate periods (period 3 and 8 excluded). -/
def libraryPeriods : List Nat := [1, 2, 4, 5, 6, 7]

def mkLibraryEntry (batch : Batch) (subjectId : String)
    (day period : Nat) : TimetableEntry :=
  { day, period, subjectId, facultyId := "", roomId := "", batchId := batch.id,
    subBatchId := none, isLabSession := false, labSlot := none }

def autoFillLibrary (batch : Batch) (subjects : List Subject)
    (existingEntries : List TimetableEntry) :
    List TimetableEntry × List Explanation :=
  match (sortOn Subject.id (subjects.filter fun s =>
      decide (s.type = .LIBRARY) && s.departmentId == batch.departmentId &&
        s.semester == batch.semester)).head? with
  | none => ([], [])
  | some librarySubject =>
    -- the nested day/period `for` loops with an early return, as a
    -- day-major search for the first batch-free slot
    let pairs := (WORKING_DAYS.map fun day =>
      libraryPeriods.map fun period => (day, period)).flatten
    match pairs.find? (fun dp => isSlotAvailable existingEntries batch.id dp.1 dp.2) with
    | none => ([], [])
    | some dp =>
      ([mkLibraryEntry batch librarySubject.id dp.1 dp.2],
       [expl .INFO .SCHEDULER (some librarySubject.id) (some 7)
         s!"Auto-filled Library on Day {dp.1 + 1}, Period {dp.2}."])

/-- The comparator of the final `entries.sort` (by day, then period). -/
def entryOrder (a b : TimetableEntry) : Prop :=
  a.day < b.day ∨ (a.day = b.day ∧ a.period ≤ b.period)

instance : DecidableRel entryOrder := fun a b => by
  unfold entryOrder
  infer_instance

/-- Steps 3-7 of `generateTimetable`: the entry list accumulated after the
lab allocation and the four placement phases (exactly the `allEntries`
value at the step-8 workload gate). -/
def entriesThroughStep7 (infrastructure : InfrastructureState)
    (academic : AcademicState) (batch : Batch)
    (existingRotations : List LabRotation) : List TimetableEntry :=
  let labSubjects := academic.subjects.filter fun s => decide (s.type = .LAB)
  let deptLabs := infrastructure.labs.filter fun l =>
    l.departmentId == batch.departmentId
  let labResult := allocateLabsForBatch batch labSubjects deptLabs
    academic.faculty [] existingRotations
  let allEntries := labResult.entries
  let allEntries := allEntries ++ (placeMandatorySubjects batch academic.subjects
    academic.faculty infrastructure.classrooms allEntries).1
  let allEntries := allEntries ++ (distributeTheorySubjects batch academic.subjects
    academic.faculty infrastructure.classrooms allEntries).1
  let allEntries := allEntries ++ (placeOpenElectives batch academic.subjects
    academic.faculty infrastructure.classrooms allEntries).1
  allEntries ++ (autoFillLibrary batch academic.subjects allEntries).1

/-- Everything `generateTimetable` computes except the injected
`generatedAt` clock stamp: an optional `(batchId, sorted entries)` payload
(present exactly on success) plus the explanation log. -/
structure GenCore where
  payload : Option (String × List TimetableEntry)
  explanations : List Explanation
deriving DecidableEq, Repr, Inhabited

def generateTimetableCore (infrastructure : InfrastructureState)
    (academic : AcademicState) (batchId : String)
    (existingRotations : List LabRotation) : GenCore :=
  let validation := validateAll infrastructure academic
  let explanations := validation.explanations
  if !validation.isValid then
    { payload := none, explanations }
  else
    let explanations := explanations ++ [expl .INFO .VALIDATOR none (some 1)
      "All inputs validated successfully."]
    match academic.batches.find? (fun b => b.id == batchId) with
    | none =>
      { payload := none,
        explanations := explanations ++ [expl .ERROR .SCHEDULER none (some 2)
          s!"Batch with ID \"{batchId}\" not found."] }
    | some batch =>
      let explanations := explanations ++ [expl .INFO .SCHEDULER none (some 2)
        "Academic time structure locked."]
      let labSubjects := academic.subjects.filter fun s => decide (s.type = .LAB)
      let deptLabs := infrastructure.labs.filter fun l =>
        l.departmentId == batch.departmentId
      let labResult := allocateLabsForBatch batch labSubjects deptLabs
        academic.faculty [] existingRotations
      let allEntries := labResult.entries
      let explanations := explanations ++ labResult.explanations
      if !labResult.success then
        { payload := none, explanations }
      else
        let mandatoryResult := placeMandatorySubjects batch academic.subjects
          academic.faculty infrastructure.classrooms allEntries
        let allEntries := allEntries ++ mandatoryResult.1
        let explanations := explanations ++ mandatoryResult.2
        let theoryResult := distributeTheorySubjects batch academic.subjects
          academic.faculty infrastructure.classrooms allEntries
        let allEntries := allEntries ++ theoryResult.1
        let explanations := explanations ++ theoryResult.2
        let electiveResult := placeOpenElectives batch academic.subjects
          academic.faculty infrastructure.classrooms allEntries
        let allEntries := allEntries ++ electiveResult.1
        let explanations := explanations ++ electiveResult.2
        let libraryResult := autoFillLibrary batch academic.subjects allEntries
        let allEntries := allEntries ++ libraryResult.1
        let explanations := explanations ++ libraryResult.2
        let workloadExplanations := validateWorkload academic.faculty
          academic.subjects allEntries
        let explanations := explanations ++ workloadExplanations
        if hasWorkloadViolation academic.faculty academic.subjects allEntries then
          { payload := none,
            explanations := explanations ++ [expl .ERROR .WORKLOAD none (some 8)
              "Faculty workload limits exceeded. Generation failed."] }
        else
          let explanations := explanations ++ [expl .INFO .SCHEDULER none (some 9)
            "Final validation passed. No constraint violations."]
          let sortedEntries := allEntries.insertionSort entryOrder
          let bname := batch.name
          let n := allEntries.length
          { payload := some (batch.id, sortedEntries),
            explanations := explanations ++ [expl .INFO .SCHEDULER none (some 10)
              s!"Timetable generated successfully for batch \"{bname}\" with {n} entries."] }

/-- `generateTimetable`; the injected id/timestamp source is the explicit
deterministic `now` parameter stamping `generatedAt`. -/
def generateTimetable (infrastructure : InfrastructureState)
    (academic : AcademicState) (batchId : String)
    (existingRotations : List LabRotation) (now : Nat) : GenerationResult :=
  let core := generateTimetableCore infrastructure academic batchId existingRotations
  match core.payload with
  | none => { success := false, timetable := none, explanations := core.explanations }
  | some p =>
    { success := true,
      timetable := some { batchId := p.1, entries := p.2, generatedAt := now,
                          isValid := true },
      explanations := core.explanations }

/-! ## Basic lemmas about the embedding -/

theorem sortOn_perm {α : Type} (key : α → String) (l : List α) :
    (sortOn key l).Perm l :=
  List.perm_insertionSort _ l

theorem mem_sortOn {α : Type} {key : α → String} {l : List α} {x : α} :
    x ∈ sortOn key l ↔ x ∈ l :=
  (sortOn_perm key l).mem_iff

/-- Fold invariant principle used for all the `forEach` loops. -/
theorem foldl_inv {σ α : Type} (step : σ → α → σ) (P : σ → Prop)
    (l : List α) (init : σ) (h0 : P init)
    (hstep : ∀ s a, a ∈ l → P s → P (step s a)) : P (l.foldl step init) := by
  induction l generalizing init with
  | nil => exact h0
  | cons x xs ih =>
    exact ih (step init x) (hstep init x (by simp) h0)
      (fun s a ha hp => hstep s a (by simp [ha]) hp)

theorem isSlotAvailable_iff (es : List TimetableEntry) (B : String) (d p : Nat) :
    isSlotAvailable es B d p = true ↔
      ∀ e ∈ es, ¬(e.batchId = B ∧ e.day = d ∧ e.period = p) := by
  simp [isSlotAvailable, List.any_eq_true, not_exists]

theorem isFacultyAvailable_iff (es : List TimetableEntry) (F : String) (d p : Nat) :
    isFacultyAvailable es F d p = true ↔
      ∀ e ∈ es, ¬(e.facultyId = F ∧ e.day = d ∧ e.period = p) := by
  simp [isFacultyAvailable, List.any_eq_true, not_exists]

theorem isRoomAvailable_iff (es : List TimetableEntry) (R : String) (d p : Nat) :
    isRoomAvailable es R d p = true ↔
      ∀ e ∈ es, ¬(e.roomId = R ∧ e.day = d ∧ e.period = p) := by
  simp [isRoomAvailable, List.any_eq_true, not_exists]

theorem isFacultyAvailableForSlot_iff (es : List TimetableEntry) (F : String)
    (d : Nat) (ps : List Nat) :
    isFacultyAvailableForSlot es F d ps = true ↔
      ∀ p ∈ ps, ∀ e ∈ es, ¬(e.facultyId = F ∧ e.day = d ∧ e.period = p) := by
  simp [isFacultyAvailableForSlot, List.any_eq_true, not_exists]

/-! ## Claim C8: sub-batch splitting -/

theorem subBatchLoop_counts (cap : Nat) :
    ∀ (k i r : Nat), k * cap < r → r ≤ (k + 1) * cap →
      ((subBatchLoop cap (k + 1) i r).map SubBatch.studentCount) =
        List.replicate k cap ++ [r - k * cap] := by
  intro k
  induction k with
  | zero =>
    intro i r h1 h2
    have hr2 : r ≤ cap := by
      calc r ≤ (0 + 1) * cap := h2
        _ = cap := by ring
    have hmin : min cap r = r := Nat.min_eq_right hr2
    have hstep : subBatchLoop cap 1 i r =
        [{ id := "", name := s!"A{i + 1}", studentCount := min cap r }] := rfl
    rw [hstep, hmin]
    simp
  | succ k ih =>
    intro i r h1 h2
    have e1 : (k + 1) * cap = k * cap + cap := Nat.succ_mul k cap
    have e2 : (k + 1 + 1) * cap = (k + 1) * cap + cap := Nat.succ_mul (k + 1) cap
    have hcle : cap ≤ r := by omega
    have hmin : min cap r = cap := Nat.min_eq_left hcle
    have hstep : subBatchLoop cap (k + 1 + 1) i r =
        { id := "", name := s!"A{i + 1}", studentCount := min cap r } ::
          subBatchLoop cap (k + 1) (i + 1) (r - min cap r) := rfl
    rw [hstep, hmin, List.map_cons, ih (i + 1) (r - cap) (by omega) (by omega),
      List.replicate_succ, List.cons_append]
    have harith : r - cap - k * cap = r - (k + 1) * cap := by omega
    rw [harith]

/-- C8: for lab capacity at least the student total, `calculateSubBatches`
returns a single sub-batch covering all students; otherwise it returns
`ceil(total / capacity)` sub-batches whose sizes are the capacity for all
but possibly the last and sum to the total.  (Capacity is positive by the
data-model invariant; for capacity 0 the JS source diverges.) -/
theorem calculateSubBatches_spec (total cap : Nat) (hcap : 0 < cap) :
    (cap ≥ total →
      (calculateSubBatches total cap).map SubBatch.studentCount = [total]) ∧
    (cap < total →
      ((calculateSubBatches total cap).map SubBatch.studentCount).length
          = (total + cap - 1) / cap ∧
      ((calculateSubBatches total cap).map SubBatch.studentCount).sum = total ∧
      ∀ c ∈ ((calculateSubBatches total cap).map SubBatch.studentCount).dropLast,
        c = cap) := by
  constructor
  · intro h
    simp [calculateSubBatches, h]
  · intro h
    have hne : ¬(cap ≥ total) := by omega
    obtain ⟨j, hj⟩ : ∃ j, (total + cap - 1) / cap = j + 1 := by
      refine ⟨(total + cap - 1) / cap - 1, ?_⟩
      have hpos : 0 < (total + cap - 1) / cap :=
        Nat.div_pos (by omega) hcap
      omega
    have hq : cap * ((total + cap - 1) / cap) + (total + cap - 1) % cap
        = total + cap - 1 := Nat.div_add_mod _ _
    have hr : (total + cap - 1) % cap < cap := Nat.mod_lt _ hcap
    rw [hj] at hq
    have e1 : cap * (j + 1) = cap * j + cap := by ring
    rw [e1] at hq
    have hcomm : j * cap = cap * j := Nat.mul_comm j cap
    have hlb : j * cap < total := by omega
    have hub : total ≤ (j + 1) * cap := by
      have e2 : (j + 1) * cap = cap * j + cap := by ring
      omega
    have hcounts := subBatchLoop_counts cap j 0 total hlb hub
    refine ⟨?_, ?_, ?_⟩
    · simp only [calculateSubBatches, if_neg hne, hj, hcounts]
      simp
    · simp only [calculateSubBatches, if_neg hne, hj, hcounts]
      rw [List.sum_append, List.sum_replicate]
      simp only [smul_eq_mul, List.sum_cons, List.sum_nil]
      omega
    · simp only [calculateSubBatches, if_neg hne, hj, hcounts, List.dropLast_concat]
      intro c hc
      exact List.eq_of_mem_replicate hc

/-- C8 witness: 70 students with lab capacity 30 split into sizes
[30, 30, 10], i.e. ceil(70/30) = 3 groups. -/
theorem calculateSubBatches_spec_witness :
    0 < 30 ∧ (30 < 70 →
      ((calculateSubBatches 70 30).map SubBatch.studentCount).length
          = (70 + 30 - 1) / 30 ∧
      ((calculateSubBatches 70 30).map SubBatch.studentCount).sum = 70 ∧
      ∀ c ∈ ((calculateSubBatches 70 30).map SubBatch.studentCount).dropLast,
        c = 30) ∧
    (calculateSubBatches 70 30).map SubBatch.studentCount = [30, 30, 10] :=
  ⟨by decide, (calculateSubBatches_spec 70 30 (by decide)).2, by decide⟩

/-! ## Concrete test fixtures (shared by witnesses and counterexamples) -/

def testInfra : InfrastructureState :=
  { blocks := [{ id := "b1", name := "B1" }]
    departments := [{ id := "d1", name := "D1", blockId := "b1" }]
    classrooms := [{ id := "c1", name := "C1", capacity := 100, departmentId := "d1" }]
    labs := [{ id := "l1", name := "L1", capacity := 30, departmentId := "d1" }] }

def mkTestFaculty (i : String) (desig : FacultyDesignation)
    (th lb : List String) : Faculty :=
  { id := i, name := i, employeeId := i, designation := desig,
    departmentId := "d1", assignedTheorySubjects := th, assignedLabSubjects := lb }

def mkTestSubject (i : String) (t : SubjectType) (pp : Nat) : Subject :=
  { id := i, name := i, code := i, type := t, periodsPerWeek := pp,
    departmentId := "d1", semester := 1 }

/-- A batch split into two sub-batches (triggers the parallel lab branch). -/
def testBatchTwoSB : Batch :=
  { id := "bat", name := "CSE", semester := 1, «section» := "A",
    departmentId := "d1", totalStudents := 60,
    subBatches := [{ id := "s1", name := "A1", studentCount := 30 },
                   { id := "s2", name := "A2", studentCount := 30 }] }

/-- Academic snapshot with two lab subjects, each with two assigned lab
faculty, so that both sub-batches get placed in each parallel session. -/
def testAcadTwoSB : AcademicState :=
  { batches := [testBatchTwoSB]
    subjects := [mkTestSubject "sl1" .LAB 1, mkTestSubject "sl2" .LAB 1]
    faculty := [mkTestFaculty "f1" .ASSISTANT_PROFESSOR [] ["sl1"],
                mkTestFaculty "f2" .ASSISTANT_PROFESSOR [] ["sl1"],
                mkTestFaculty "f3" .ASSISTANT_PROFESSOR [] ["sl2"],
                mkTestFaculty "f4" .ASSISTANT_PROFESSOR [] ["sl2"]] }

/-- A single-sub-batch batch. -/
def testBatchSingle : Batch :=
  { id := "bs", name := "S", semester := 1, «section» := "A",
    departmentId := "d1", totalStudents := 30,
    subBatches := [{ id := "s1", name := "A", studentCount := 30 }] }

/-- Academic snapshot whose professor f1 passes the step-1 assignment check
(assigned periods-per-week sum to 5) but accumulates 6 non-lab entries
(5 theory + 1 open elective) by step 7, overloading the professor limit. -/
def testAcadOverload : AcademicState :=
  { batches := [testBatchSingle]
    subjects := [mkTestSubject "sl1" .LAB 1, mkTestSubject "sl2" .LAB 1,
                 mkTestSubject "se1" .OPEN_ELECTIVE 0, mkTestSubject "st1" .THEORY 5]
    faculty := [mkTestFaculty "f1" .PROFESSOR ["se1", "st1"] [],
                mkTestFaculty "f2" .ASSISTANT_PROFESSOR [] ["sl1"],
                mkTestFaculty "f3" .ASSISTANT_PROFESSOR [] ["sl2"]] }

/-- Academic snapshot with no LAB-typed subject at all (step-1 validation
passes with a warning). -/
def testAcadNoLabs : AcademicState :=
  { batches := [testBatchSingle]
    subjects := [mkTestSubject "st1" .THEORY 2]
    faculty := [mkTestFaculty "f1" .PROFESSOR ["st1"] []] }

/-! ## Claim C6: workload statistics -/

/-- C6: for every faculty member, `calculateWorkload` yields a stats record
whose `theoryPeriods` counts the member's non-lab entries, whose
`labSessions` counts the distinct (day, labSlot) pairs of the member's lab
entries, whose limits come from the designation table
(Professor {5, 1}, Associate Professor {5, 1.5}, Assistant {10, 2}), and
whose `isOverloaded` holds exactly when a count exceeds its limit; the
fractional 1.5 limit makes 2 sessions overloaded while 1 is not. -/
theorem calculateWorkload_spec (faculty : List Faculty) (subjects : List Subject)
    (entries : List TimetableEntry) (f : Faculty) (hf : f ∈ faculty) :
    ∃ stat ∈ calculateWorkload faculty subjects entries,
      stat.facultyId = f.id ∧
      stat.theoryPeriods =
        (entries.filter fun e => e.facultyId == f.id && !e.isLabSession).length ∧
      stat.labSessions =
        (((entries.filter fun e => e.facultyId == f.id && e.isLabSession).map
            fun e => (e.day, e.labSlot)).dedup).length ∧
      stat.theoryLimit = (FACULTY_WORKLOAD_LIMITS f.designation).theoryPeriods ∧
      stat.labLimit = (FACULTY_WORKLOAD_LIMITS f.designation).labSessions ∧
      (stat.isOverloaded = true ↔
        ((stat.theoryPeriods : ℚ) > stat.theoryLimit ∨
          (stat.labSessions : ℚ) > stat.labLimit)) ∧
      FACULTY_WORKLOAD_LIMITS .PROFESSOR = ⟨5, 1⟩ ∧
      FACULTY_WORKLOAD_LIMITS .ASSOCIATE_PROFESSOR = ⟨5, 3 / 2⟩ ∧
      FACULTY_WORKLOAD_LIMITS .ASSISTANT_PROFESSOR = ⟨10, 2⟩ ∧
      (2 : ℚ) > (FACULTY_WORKLOAD_LIMITS .ASSOCIATE_PROFESSOR).labSessions ∧
      ¬((1 : ℚ) > (FACULTY_WORKLOAD_LIMITS .ASSOCIATE_PROFESSOR).labSessions) := by
  refine ⟨statFor entries f, List.mem_map_of_mem _ (mem_sortOn.mpr hf),
    rfl, rfl, rfl, rfl, rfl, ?_, rfl, ?_, rfl, by decide, by decide⟩
  · simp [statFor]
  · have h32 : mkRat 3 2 = (3 : ℚ) / 2 := by norm_num
    simp [FACULTY_WORKLOAD_LIMITS, h32]

/-- C6 witness: instantiation at a concrete associate professor with two
recorded lab sessions. -/
theorem calculateWorkload_spec_witness :
    (mkTestFaculty "g1" .ASSOCIATE_PROFESSOR [] ["sl1"]) ∈
        [mkTestFaculty "g1" .ASSOCIATE_PROFESSOR [] ["sl1"]] ∧
    ∃ stat ∈ calculateWorkload
        [mkTestFaculty "g1" .ASSOCIATE_PROFESSOR [] ["sl1"]] [] [],
      stat.facultyId = "g1" :=
  ⟨List.mem_singleton.mpr rfl, by
    obtain ⟨stat, hmem, hid, -⟩ :=
      calculateWorkload_spec
        [mkTestFaculty "g1" .ASSOCIATE_PROFESSOR [] ["sl1"]] [] []
        (mkTestFaculty "g1" .ASSOCIATE_PROFESSOR [] ["sl1"])
        (List.mem_singleton.mpr rfl)
    exact ⟨stat, hmem, hid⟩⟩

/-! ## Claim C2: determinism -/

/-- C2: `generateTimetable` is deterministic — with the injected
id/timestamp source held abstract (ids and `createdAt` erased from the
model, the clock passed explicitly), two runs on identical inputs agree on
success, on the entire entry list (hence on every positional
day/period/subject/faculty/room/batch/subBatch/isLab/labSlot value) and on
the explanation log, for any two values of the injected clock. -/
theorem generateTimetable_deterministic (infrastructure : InfrastructureState)
    (academic : AcademicState) (batchId : String) (rot : List LabRotation)
    (now₁ now₂ : Nat) :
    (generateTimetable infrastructure academic batchId rot now₁).success =
      (generateTimetable infrastructure academic batchId rot now₂).success ∧
    ((generateTimetable infrastructure academic batchId rot now₁).timetable.map
        Timetable.entries) =
      ((generateTimetable infrastructure academic batchId rot now₂).timetable.map
        Timetable.entries) ∧
    (generateTimetable infrastructure academic batchId rot now₁).explanations =
      (generateTimetable infrastructure academic batchId rot now₂).explanations := by
  unfold generateTimetable
  rcases h : (generateTimetableCore infrastructure academic batchId rot).payload
    with - | p <;> simp [h]

/-! ## Claim C10: unknown batch id -/

/-- C10: when step-1 validation passes but no batch carries the requested
id, generation fails with no timetable and an ERROR from SCHEDULER at step
2 reporting the batch was not found. -/
theorem generateTimetable_batchNotFound (infrastructure : InfrastructureState)
    (academic : AcademicState) (batchId : String) (rot : List LabRotation)
    (now : Nat)
    (hvalid : (validateAll infrastructure academic).isValid = true)
    (hfind : academic.batches.find? (fun b => b.id == batchId) = none) :
    (generateTimetable infrastructure academic batchId rot now).success = false ∧
    (generateTimetable infrastructure academic batchId rot now).timetable = none ∧
    ∃ ex ∈ (generateTimetable infrastructure academic batchId rot now).explanations,
      ex.level = .ERROR ∧ ex.source = .SCHEDULER ∧ ex.step = some 2 ∧
      ex.message = s!"Batch with ID \"{batchId}\" not found." := by
  have hgen : generateTimetable infrastructure academic batchId rot now =
      { success := false, timetable := none,
        explanations := (validateAll infrastructure academic).explanations ++
          [expl .INFO .VALIDATOR none (some 1) "All inputs validated successfully."] ++
          [expl .ERROR .SCHEDULER none (some 2)
            s!"Batch with ID \"{batchId}\" not found."] } := by
    simp [generateTimetable, generateTimetableCore, hvalid, hfind]
  rw [hgen]
  refine ⟨rfl, rfl, expl .ERROR .SCHEDULER none (some 2)
    s!"Batch with ID \"{batchId}\" not found.", ?_, rfl, rfl, rfl, rfl⟩
  simp [List.mem_append]

/-- C10 witness: a concrete valid snapshot queried with an id no batch has. -/
theorem generateTimetable_batchNotFound_witness :
    ((validateAll testInfra testAcadTwoSB).isValid = true ∧
      testAcadTwoSB.batches.find? (fun b => b.id == "nope") = none) ∧
    (generateTimetable testInfra testAcadTwoSB "nope" [] 0).success = false ∧
    (generateTimetable testInfra testAcadTwoSB "nope" [] 0).timetable = none ∧
    ∃ ex ∈ (generateTimetable testInfra testAcadTwoSB "nope" [] 0).explanations,
      ex.level = .ERROR ∧ ex.source = .SCHEDULER ∧ ex.step = some 2 ∧
      ex.message = s!"Batch with ID \"nope\" not found." :=
  ⟨⟨by decide, by decide⟩,
    generateTimetable_batchNotFound testInfra testAcadTwoSB "nope" [] 0
      (by decide) (by decide)⟩

/-! ## Claim C4: lab allocation loop (code bug) -/

/-- C4 failing input: exactly one lab subject, with assigned lab faculty. -/
def c4Subject : Subject := mkTestSubject "sx" .LAB 1

def c4Faculty : Faculty := mkTestFaculty "fx" .ASSISTANT_PROFESSOR [] ["sx"]

def c4Lab : Lab := { id := "l1", name := "L1", capacity := 30, departmentId := "d1" }

/-- C4 (evaluating the code at the failing input): for a batch with exactly
one lab subject (with assigned faculty) and all 12 (day, slot) pairs free,
the allocation loop stops after a single session (3 entries) because its
guard also requires `subjectIndex < subjectCount`, and the allocator then
fails the minimum-2-sessions post-check — the claimed
`max(subjectCount, MIN_LAB_SESSIONS_PER_WEEK)` = 2 sessions are never
placed. -/
theorem allocateLabs_singleSubject_stopsEarly :
    MIN_LAB_SESSIONS_PER_WEEK ≤
      (getAvailableLabSlots [] testBatchSingle.id).length ∧
    (allocateLabsForBatch testBatchSingle [c4Subject] [c4Lab] [c4Faculty]
        [] []).entries.length = 3 ∧
    (allocateLabsForBatch testBatchSingle [c4Subject] [c4Lab] [c4Faculty]
        [] []).success = false := by
  refine ⟨by decide, by decide, by decide⟩

/-! ## Claim C5: lab allocator preconditions -/

theorem sortOn_nil {α : Type} (key : α → String) : sortOn key [] = [] := rfl

theorem sortOn_length {α : Type} (key : α → String) (l : List α) :
    (sortOn key l).length = l.length :=
  (sortOn_perm key l).length_eq

/-- Abort shape when no lab subject is scoped to the batch's
department and semester. -/
theorem allocateLabs_noScoped (batch : Batch) (labSubjects : List Subject)
    (labs : List Lab) (faculty : List Faculty) (es : List TimetableEntry)
    (rot : List LabRotation)
    (h : labSubjects.filter (fun s => s.departmentId == batch.departmentId &&
        s.semester == batch.semester) = []) :
    ∃ ex, allocateLabsForBatch batch labSubjects labs faculty es rot =
        { entries := [], rotations := [], explanations := [ex], success := false } ∧
      ex.level = .ERROR ∧ ex.source = .LAB_ALLOCATOR ∧
      ex.relatedEntityId = some batch.id ∧ ex.step = some 3 := by
  refine ⟨expl .ERROR .LAB_ALLOCATOR (some batch.id) (some 3)
    (labMsgNoSubjects batch.name), ?_, rfl, rfl, rfl, rfl⟩
  simp [allocateLabsForBatch, h, sortOn_nil]

/-- Abort shape when lab subjects exist but the department has no lab. -/
theorem allocateLabs_noDeptLabs (batch : Batch) (labSubjects : List Subject)
    (labs : List Lab) (faculty : List Faculty) (es : List TimetableEntry)
    (rot : List LabRotation)
    (hs : labSubjects.filter (fun s => s.departmentId == batch.departmentId &&
        s.semester == batch.semester) ≠ [])
    (hl : labs.filter (fun l => l.departmentId == batch.departmentId) = []) :
    ∃ ex, allocateLabsForBatch batch labSubjects labs faculty es rot =
        { entries := [], rotations := [], explanations := [ex], success := false } ∧
      ex.level = .ERROR ∧ ex.source = .LAB_ALLOCATOR ∧
      ex.relatedEntityId = some batch.id ∧ ex.step = some 3 := by
  have h1 : ¬((sortOn Subject.id (labSubjects.filter fun s =>
      s.departmentId == batch.departmentId &&
        s.semester == batch.semester)).length = 0) := by
    rw [sortOn_length, List.length_eq_zero]
    exact hs
  refine ⟨expl .ERROR .LAB_ALLOCATOR (some batch.id) (some 3)
    (labMsgNoLabs batch.name), ?_, rfl, rfl, rfl, rfl⟩
  simp only [allocateLabsForBatch, if_neg h1, hl, sortOn_nil, List.length_nil]
  simp

/-- Abort shape when fewer than 2 (day, slot) pairs are free. -/
theorem allocateLabs_notEnoughSlots (batch : Batch) (labSubjects : List Subject)
    (labs : List Lab) (faculty : List Faculty) (es : List TimetableEntry)
    (rot : List LabRotation)
    (hs : labSubjects.filter (fun s => s.departmentId == batch.departmentId &&
        s.semester == batch.semester) ≠ [])
    (hl : labs.filter (fun l => l.departmentId == batch.departmentId) ≠ [])
    (hslots : (getAvailableLabSlots es batch.id).length <
      MIN_LAB_SESSIONS_PER_WEEK) :
    ∃ ex, allocateLabsForBatch batch labSubjects labs faculty es rot =
        { entries := [], rotations := [], explanations := [ex], success := false } ∧
      ex.level = .ERROR ∧ ex.source = .LAB_ALLOCATOR ∧
      ex.relatedEntityId = some batch.id ∧ ex.step = some 3 := by
  have h1 : ¬((sortOn Subject.id (labSubjects.filter fun s =>
      s.departmentId == batch.departmentId &&
        s.semester == batch.semester)).length = 0) := by
    rw [sortOn_length, List.length_eq_zero]
    exact hs
  have h2 : ¬((sortOn Lab.id (labs.filter fun l =>
      l.departmentId == batch.departmentId)).length = 0) := by
    rw [sortOn_length, List.length_eq_zero]
    exact hl
  refine ⟨expl .ERROR .LAB_ALLOCATOR (some batch.id) (some 3)
    (labMsgNotEnoughSlots batch.name), ?_, rfl, rfl, rfl, rfl⟩
  simp only [allocateLabsForBatch, if_neg h1, if_neg h2, if_pos hslots]

/-- C5: the lab allocator aborts with success=false, an empty entry list
and an ERROR explanation from LAB_ALLOCATOR at step 3 whenever a
precondition fails — no lab subjects scoped to the batch's
department+semester, no labs in the batch's department, or fewer than
MIN_LAB_SESSIONS_PER_WEEK = 2 available (day, slot) pairs; and through
`generateTimetable`, a validated snapshot whose batch has zero LAB-typed
subjects in its department/semester yields success=false with an ERROR at
step 3 from LAB_ALLOCATOR. -/
theorem allocateLabs_preconditions :
    (∀ (batch : Batch) (labSubjects : List Subject) (labs : List Lab)
        (faculty : List Faculty) (es : List TimetableEntry)
        (rot : List LabRotation),
      (labSubjects.filter (fun s => s.departmentId == batch.departmentId &&
            s.semester == batch.semester) = [] ∨
        labs.filter (fun l => l.departmentId == batch.departmentId) = [] ∨
        (getAvailableLabSlots es batch.id).length < MIN_LAB_SESSIONS_PER_WEEK) →
      (allocateLabsForBatch batch labSubjects labs faculty es rot).success = false ∧
      (allocateLabsForBatch batch labSubjects labs faculty es rot).entries = [] ∧
      ∃ ex ∈ (allocateLabsForBatch batch labSubjects labs faculty es rot).explanations,
        ex.level = .ERROR ∧ ex.source = .LAB_ALLOCATOR ∧ ex.step = some 3) ∧
    (∀ (infrastructure : InfrastructureState) (academic : AcademicState)
        (batchId : String) (rot : List LabRotation) (now : Nat) (batch : Batch),
      (validateAll infrastructure academic).isValid = true →
      academic.batches.find? (fun b => b.id == batchId) = some batch →
      (academic.subjects.filter fun s => decide (s.type = .LAB)).filter
          (fun s => s.departmentId == batch.departmentId &&
            s.semester == batch.semester) = [] →
      (generateTimetable infrastructure academic batchId rot now).success = false ∧
      ∃ ex ∈ (generateTimetable infrastructure academic batchId rot now).explanations,
        ex.level = .ERROR ∧ ex.source = .LAB_ALLOCATOR ∧ ex.step = some 3) := by
  constructor
  · intro batch labSubjects labs faculty es rot h
    by_cases hA : labSubjects.filter (fun s =>
        s.departmentId == batch.departmentId && s.semester == batch.semester) = []
    · obtain ⟨ex, hres, hl, hsrc, -, hst⟩ :=
        allocateLabs_noScoped batch labSubjects labs faculty es rot hA
      rw [hres]
      exact ⟨rfl, rfl, ex, by simp, hl, hsrc, hst⟩
    · rcases h with h | h | h
      · exact absurd h hA
      · obtain ⟨ex, hres, hl, hsrc, -, hst⟩ :=
          allocateLabs_noDeptLabs batch labSubjects labs faculty es rot hA h
        rw [hres]
        exact ⟨rfl, rfl, ex, by simp, hl, hsrc, hst⟩
      · by_cases hB : labs.filter (fun l => l.departmentId == batch.departmentId) = []
        · obtain ⟨ex, hres, hl, hsrc, -, hst⟩ :=
            allocateLabs_noDeptLabs batch labSubjects labs faculty es rot hA hB
          rw [hres]
          exact ⟨rfl, rfl, ex, by simp, hl, hsrc, hst⟩
        · obtain ⟨ex, hres, hl, hsrc, -, hst⟩ :=
            allocateLabs_notEnoughSlots batch labSubjects labs faculty es rot hA hB h
          rw [hres]
          exact ⟨rfl, rfl, ex, by simp, hl, hsrc, hst⟩
  · intro infrastructure academic batchId rot now batch hvalid hfind hempty
    obtain ⟨ex, hres, hl, hsrc, -, hst⟩ :=
      allocateLabs_noScoped batch
        (academic.subjects.filter fun s => decide (s.type = .LAB))
        (infrastructure.labs.filter fun l => l.departmentId == batch.departmentId)
        academic.faculty [] rot hempty
    have hgen : generateTimetable infrastructure academic batchId rot now =
        { success := false, timetable := none,
          explanations := (validateAll infrastructure academic).explanations ++
            [expl .INFO .VALIDATOR none (some 1) "All inputs validated successfully."] ++
            [expl .INFO .SCHEDULER none (some 2) "Academic time structure locked."] ++
            [ex] } := by
      simp [generateTimetable, generateTimetableCore, hvalid, hfind, hres]
    rw [hgen]
    exact ⟨rfl, ex, by simp, hl, hsrc, hst⟩

/-- C5 witness: both parts instantiated — a concrete batch with an empty
lab-subject list, and a concrete validated snapshot with no LAB subjects
(generation fails at step 3 with a LAB_ALLOCATOR error). -/
theorem allocateLabs_preconditions_witness :
    (([] : List Subject).filter (fun s =>
        s.departmentId == testBatchSingle.departmentId &&
          s.semester == testBatchSingle.semester) = [] ∧
      (allocateLabsForBatch testBatchSingle [] [] [] [] []).success = false) ∧
    ((validateAll testInfra testAcadNoLabs).isValid = true ∧
      testAcadNoLabs.batches.find? (fun b => b.id == "bs") = some testBatchSingle ∧
      (generateTimetable testInfra testAcadNoLabs "bs" [] 0).success = false ∧
      ∃ ex ∈ (generateTimetable testInfra testAcadNoLabs "bs" [] 0).explanations,
        ex.level = .ERROR ∧ ex.source = .LAB_ALLOCATOR ∧ ex.step = some 3) := by
  refine ⟨⟨rfl, ?_⟩, ?_, ?_, ?_⟩
  · exact (allocateLabs_preconditions.1 testBatchSingle [] [] [] [] []
      (Or.inl rfl)).1
  · decide
  · decide
  · exact allocateLabs_preconditions.2 testInfra testAcadNoLabs "bs" [] 0
      testBatchSingle (by decide) (by decide) (by decide)

/-! ## Claim C3: workload violation gate -/

/-- C3: `hasWorkloadViolation` holds exactly when some faculty member's
computed stats exceed a designation limit (theory periods or lab sessions);
and whenever it holds on the entries accumulated through step 7,
`generateTimetable` returns success = false. -/
theorem hasWorkloadViolation_spec :
    (∀ (faculty : List Faculty) (subjects : List Subject)
        (entries : List TimetableEntry),
      hasWorkloadViolation faculty subjects entries = true ↔
        ∃ f ∈ faculty,
          ((theoryPeriodCount f.id entries : ℚ) >
              (FACULTY_WORKLOAD_LIMITS f.designation).theoryPeriods ∨
            (labSessionCount f.id entries : ℚ) >
              (FACULTY_WORKLOAD_LIMITS f.designation).labSessions)) ∧
    (∀ (infrastructure : InfrastructureState) (academic : AcademicState)
        (batchId : String) (rot : List LabRotation) (now : Nat) (batch : Batch),
      (validateAll infrastructure academic).isValid = true →
      academic.batches.find? (fun b => b.id == batchId) = some batch →
      (allocateLabsForBatch batch
          (academic.subjects.filter fun s => decide (s.type = .LAB))
          (infrastructure.labs.filter fun l => l.departmentId == batch.departmentId)
          academic.faculty [] rot).success = true →
      hasWorkloadViolation academic.faculty academic.subjects
          (entriesThroughStep7 infrastructure academic batch rot) = true →
      (generateTimetable infrastructure academic batchId rot now).success = false) := by
  constructor
  · intro faculty subjects entries
    simp only [hasWorkloadViolation, calculateWorkload, List.any_eq_true,
      List.mem_map]
    constructor
    · rintro ⟨s, ⟨f, hfm, rfl⟩, hov⟩
      refine ⟨f, mem_sortOn.mp hfm, ?_⟩
      simpa [statFor] using hov
    · rintro ⟨f, hfm, hcond⟩
      refine ⟨statFor entries f, ⟨f, mem_sortOn.mpr hfm, rfl⟩, ?_⟩
      simpa [statFor] using hcond
  · intro infrastructure academic batchId rot now batch hvalid hfind hlab hviol
    simp only [entriesThroughStep7, List.append_assoc] at hviol
    simp [generateTimetable, generateTimetableCore, hvalid, hfind, hlab, hviol]

/-- C3 witness: a professor whose assigned periods pass step-1 validation
but who accumulates 6 non-lab entries by step 7; the violation aborts the
run. -/
theorem hasWorkloadViolation_spec_witness :
    ((validateAll testInfra testAcadOverload).isValid = true ∧
      testAcadOverload.batches.find? (fun b => b.id == "bs") = some testBatchSingle ∧
      (allocateLabsForBatch testBatchSingle
          (testAcadOverload.subjects.filter fun s => decide (s.type = .LAB))
          (testInfra.labs.filter fun l =>
            l.departmentId == testBatchSingle.departmentId)
          testAcadOverload.faculty [] []).success = true ∧
      hasWorkloadViolation testAcadOverload.faculty testAcadOverload.subjects
          (entriesThroughStep7 testInfra testAcadOverload testBatchSingle []) = true) ∧
    (generateTimetable testInfra testAcadOverload "bs" [] 0).success = false :=
  ⟨⟨by decide, by decide, by decide, by decide⟩,
    hasWorkloadViolation_spec.2 testInfra testAcadOverload "bs" [] 0 testBatchSingle
      (by decide) (by decide) (by decide) (by decide)⟩

/-! ## Claim C9: open-elective precondition handling -/

/-- C9 counterexample: an OPEN_ELECTIVE subject with no assigned theory
faculty — a missing precondition — is skipped with NO explanation at all
(the claimed WARNING is never emitted). -/
theorem placeOpenElectives_silentSkip_counterexample :
    (sortOn Faculty.id (([] : List Faculty).filter fun f =>
        f.assignedTheorySubjects.contains "oe1")).head? = none ∧
    placeOpenElectives testBatchSingle [mkTestSubject "oe1" .OPEN_ELECTIVE 1]
        [] testInfra.classrooms [] = ([], []) :=
  ⟨rfl, by decide⟩

/-- C9 (amended): in the open-elective phase, processing one subject at
index `i` behaves as follows — an out-of-range index, an occupied batch
slot, or an assigned-but-busy faculty each emit exactly one WARNING from
SCHEDULER at step 6 naming the subject and place nothing; a missing
assigned faculty or a missing department classroom skip the subject
silently (no entry, no explanation); with all preconditions met one entry
is placed with an INFO explanation.  In no case does the phase abort. -/
theorem electiveStep_characterization
    (batch : Batch) (faculty : List Faculty) (classrooms : List Classroom)
    (existingEntries entries : List TimetableEntry)
    (explanations : List Explanation) (index : Nat) (subject : Subject) :
    (index ≥ electiveAllowedDays.length →
      ∃ w, electiveStep batch faculty classrooms existingEntries
          (entries, explanations) (index, subject) =
            (entries, explanations ++ [w]) ∧
        w.level = .WARNING ∧ w.source = .SCHEDULER ∧
        w.relatedEntityId = some subject.id ∧ w.step = some 6) ∧
    (index < electiveAllowedDays.length →
      isSlotAvailable (existingEntries ++ entries) batch.id
          (electiveAllowedDays.getD index 0) 1 = false →
      ∃ w, electiveStep batch faculty classrooms existingEntries
          (entries, explanations) (index, subject) =
            (entries, explanations ++ [w]) ∧
        w.level = .WARNING ∧ w.source = .SCHEDULER ∧
        w.relatedEntityId = some subject.id ∧ w.step = some 6) ∧
    (index < electiveAllowedDays.length →
      isSlotAvailable (existingEntries ++ entries) batch.id
          (electiveAllowedDays.getD index 0) 1 = true →
      (sortOn Faculty.id (faculty.filter fun f =>
          f.assignedTheorySubjects.contains subject.id)).head? = none →
      electiveStep batch faculty classrooms existingEntries
          (entries, explanations) (index, subject) = (entries, explanations)) ∧
    (∀ af, index < electiveAllowedDays.length →
      isSlotAvailable (existingEntries ++ entries) batch.id
          (electiveAllowedDays.getD index 0) 1 = true →
      (sortOn Faculty.id (faculty.filter fun f =>
          f.assignedTheorySubjects.contains subject.id)).head? = some af →
      isFacultyAvailable (existingEntries ++ entries) af.id
          (electiveAllowedDays.getD index 0) 1 = false →
      ∃ w, electiveStep batch faculty classrooms existingEntries
          (entries, explanations) (index, subject) =
            (entries, explanations ++ [w]) ∧
        w.level = .WARNING ∧ w.source = .SCHEDULER ∧
        w.relatedEntityId = some subject.id ∧ w.step = some 6) ∧
    (∀ af, index < electiveAllowedDays.length →
      isSlotAvailable (existingEntries ++ entries) batch.id
          (electiveAllowedDays.getD index 0) 1 = true →
      (sortOn Faculty.id (faculty.filter fun f =>
          f.assignedTheorySubjects.contains subject.id)).head? = some af →
      isFacultyAvailable (existingEntries ++ entries) af.id
          (electiveAllowedDays.getD index 0) 1 = true →
      (sortOn Classroom.id (classrooms.filter fun c =>
          c.departmentId == batch.departmentId)).find?
          (fun c => isRoomAvailable (existingEntries ++ entries) c.id
            (electiveAllowedDays.getD index 0) 1) = none →
      electiveStep batch faculty classrooms existingEntries
          (entries, explanations) (index, subject) = (entries, explanations)) ∧
    (∀ af c, index < electiveAllowedDays.length →
      isSlotAvailable (existingEntries ++ entries) batch.id
          (electiveAllowedDays.getD index 0) 1 = true →
      (sortOn Faculty.id (faculty.filter fun f =>
          f.assignedTheorySubjects.contains subject.id)).head? = some af →
      isFacultyAvailable (existingEntries ++ entries) af.id
          (electiveAllowedDays.getD index 0) 1 = true →
      (sortOn Classroom.id (classrooms.filter fun c =>
          c.departmentId == batch.departmentId)).find?
          (fun c => isRoomAvailable (existingEntries ++ entries) c.id
            (electiveAllowedDays.getD index 0) 1) = some c →
      ∃ w, electiveStep batch faculty classrooms existingEntries
          (entries, explanations) (index, subject) =
            (entries ++ [placeTheoryEntry batch subject af.id c.id
              (electiveAllowedDays.getD index 0) 1],
             explanations ++ [w]) ∧
        w.level = .INFO ∧ w.source = .SCHEDULER ∧
        w.relatedEntityId = some subject.id ∧ w.step = some 6) := by
  refine ⟨?_, ?_, ?_, ?_, ?_, ?_⟩
  · intro hidx
    refine ⟨expl .WARNING .SCHEDULER (some subject.id) (some 6)
        ("Cannot place open elective \"" ++ subject.name ++
          "\" - no available slots (Period 1, Mon-Wed)."),
      ?_, rfl, rfl, rfl, rfl⟩
    simp only [electiveStep, if_pos hidx]
    rfl
  · intro hidx hslot
    have hidx2 : ¬(index ≥ electiveAllowedDays.length) := by omega
    refine ⟨expl .WARNING .SCHEDULER (some subject.id) (some 6)
        ("Slot for open elective \"" ++ subject.name ++ "\" (Day " ++
          toString (electiveAllowedDays.getD index 0 + 1) ++
          ", Period 1) is occupied."),
      ?_, rfl, rfl, rfl, rfl⟩
    simp only [electiveStep, if_neg hidx2, hslot, Bool.not_false, if_true]
    rfl
  · intro hidx hslot hfac
    have hidx2 : ¬(index ≥ electiveAllowedDays.length) := by omega
    simp only [electiveStep, if_neg hidx2, hslot, Bool.not_true, Bool.false_eq_true,
      if_false, hfac]
  · intro af hidx hslot hfac hbusy
    have hidx2 : ¬(index ≥ electiveAllowedDays.length) := by omega
    refine ⟨expl .WARNING .SCHEDULER (some subject.id) (some 6)
        ("Faculty unavailable for open elective \"" ++ subject.name ++
          "\" (Day " ++ toString (electiveAllowedDays.getD index 0 + 1) ++
          ", Period 1)."),
      ?_, rfl, rfl, rfl, rfl⟩
    simp only [electiveStep, if_neg hidx2, hslot, Bool.not_true, Bool.false_eq_true,
      if_false, hfac, hbusy, Bool.not_false, if_true]
    rfl
  · intro af hidx hslot hfac hfree hroom
    have hidx2 : ¬(index ≥ electiveAllowedDays.length) := by omega
    simp only [electiveStep, if_neg hidx2, hslot, Bool.not_true, Bool.false_eq_true,
      if_false, hfac, hfree, hroom]
  · intro af c hidx hslot hfac hfree hroom
    have hidx2 : ¬(index ≥ electiveAllowedDays.length) := by omega
    refine ⟨expl .INFO .SCHEDULER (some subject.id) (some 6)
        ("Placed open elective \"" ++ subject.name ++ "\" on Day " ++
          toString (electiveAllowedDays.getD index 0 + 1) ++ ", Period 1."),
      ?_, rfl, rfl, rfl, rfl⟩
    simp only [electiveStep, if_neg hidx2, hslot, Bool.not_true, Bool.false_eq_true,
      if_false, hfac, hfree, hroom]
    rfl

/-- C9 witness: the silent-skip case instantiated — a first open elective
with a free slot but no assigned faculty is dropped with no explanation. -/
theorem electiveStep_characterization_witness :
    (0 < electiveAllowedDays.length ∧
      isSlotAvailable ([] ++ []) testBatchSingle.id
        (electiveAllowedDays.getD 0 0) 1 = true ∧
      (sortOn Faculty.id (([] : List Faculty).filter fun f =>
          f.assignedTheorySubjects.contains
            (mkTestSubject "oe1" .OPEN_ELECTIVE 1).id)).head? = none) ∧
    electiveStep testBatchSingle [] testInfra.classrooms [] ([], [])
      (0, mkTestSubject "oe1" .OPEN_ELECTIVE 1) = ([], []) :=
  ⟨⟨by decide, by decide, rfl⟩,
    (electiveStep_characterization testBatchSingle [] testInfra.classrooms
        [] [] [] 0 (mkTestSubject "oe1" .OPEN_ELECTIVE 1)).2.2.1
      (by decide) (by decide) rfl⟩

/-! ## Conflict predicates (claims C1, C7) -/

/-- The literal invariant of the claim: two entries at the same (day,
period) never share the batch, never share a non-empty faculty id, and
never share a non-empty room id. -/
def StrictOkPair (a b : TimetableEntry) : Prop :=
  a.day = b.day → a.period = b.period →
    a.batchId ≠ b.batchId ∧
    (a.facultyId = b.facultyId → a.facultyId = "") ∧
    (a.roomId = b.roomId → a.roomId = "")

/-- The amended pairwise invariant: coinciding (batchId, day, period) or
(roomId, day, period) keys are tolerated only between lab entries of two
distinct sub-batches (the parallel sub-batch sessions of step 3); faculty
double-booking is excluded outright. -/
def OkPair (a b : TimetableEntry) : Prop :=
  a.day = b.day → a.period = b.period →
    (a.batchId = b.batchId →
      a.isLabSession = true ∧ b.isLabSession = true ∧ a.subBatchId ≠ b.subBatchId) ∧
    (a.facultyId = b.facultyId → a.facultyId = "") ∧
    (a.roomId = b.roomId →
      a.roomId = "" ∨
        (a.isLabSession = true ∧ b.isLabSession = true ∧ a.subBatchId ≠ b.subBatchId))

instance (a b : TimetableEntry) : Decidable (StrictOkPair a b) :=
  inferInstanceAs (Decidable (a.day = b.day → a.period = b.period →
    a.batchId ≠ b.batchId ∧
    (a.facultyId = b.facultyId → a.facultyId = "") ∧
    (a.roomId = b.roomId → a.roomId = "")))

/-- The conclusion of `OkPair` once the slot coincides (named separately so
that decidability compiles). -/
def okPairBody (a b : TimetableEntry) : Prop :=
  (a.batchId = b.batchId →
    a.isLabSession = true ∧ b.isLabSession = true ∧ a.subBatchId ≠ b.subBatchId) ∧
  (a.facultyId = b.facultyId → a.facultyId = "") ∧
  (a.roomId = b.roomId →
    a.roomId = "" ∨
      (a.isLabSession = true ∧ b.isLabSession = true ∧ a.subBatchId ≠ b.subBatchId))

instance (a b : TimetableEntry) : Decidable (okPairBody a b) :=
  inferInstanceAs (Decidable ((a.batchId = b.batchId →
      a.isLabSession = true ∧ b.isLabSession = true ∧ a.subBatchId ≠ b.subBatchId) ∧
    (a.facultyId = b.facultyId → a.facultyId = "") ∧
    (a.roomId = b.roomId →
      a.roomId = "" ∨
        (a.isLabSession = true ∧ b.isLabSession = true ∧ a.subBatchId ≠ b.subBatchId))))

instance (a b : TimetableEntry) : Decidable (OkPair a b) :=
  inferInstanceAs (Decidable (a.day = b.day → a.period = b.period → okPairBody a b))

theorem okPair_symm : Symmetric OkPair := by
  intro a b h hd hp
  obtain ⟨h1, h2, h3⟩ := h hd.symm hp.symm
  refine ⟨?_, ?_, ?_⟩
  · intro hbb
    obtain ⟨la, lb, ne⟩ := h1 hbb.symm
    exact ⟨lb, la, ne.symm⟩
  · intro hf
    rw [hf]
    exact h2 hf.symm
  · intro hr
    rcases h3 hr.symm with he | ⟨la, lb, ne⟩
    · left
      rw [hr]
      exact he
    · right
      exact ⟨lb, la, ne.symm⟩

theorem okPair_of_ne_slot {a b : TimetableEntry}
    (h : ¬(a.day = b.day ∧ a.period = b.period)) : OkPair a b := by
  intro hd hp
  exact absurd ⟨hd, hp⟩ h

theorem okPair_of_ne_period {a b : TimetableEntry}
    (h : a.period ≠ b.period) : OkPair a b := by
  intro _ hp
  exact absurd hp h

theorem pairwise_append_singleton {α : Type} {R : α → α → Prop}
    {l : List α} {x : α} (h : l.Pairwise R) (hx : ∀ a ∈ l, R a x) :
    (l ++ [x]).Pairwise R := by
  rw [List.pairwise_append]
  exact ⟨h, List.pairwise_singleton R x, by simpa using hx⟩

theorem no_slot_clash {es : List TimetableEntry} {B : String} {d p : Nat}
    (hB : ∀ e ∈ es, e.batchId = B) (h : isSlotAvailable es B d p = true) :
    ∀ e ∈ es, ¬(e.day = d ∧ e.period = p) := by
  intro e he hdp
  exact ((isSlotAvailable_iff es B d p).mp h e he) ⟨hB e he, hdp.1, hdp.2⟩

theorem snd_mem_of_mem_enum {α : Type} {l : List α} {p : Nat × α}
    (h : p ∈ l.enum) : p.2 ∈ l := by
  have hg := List.mem_enum_iff_getElem?.mp h
  exact List.getElem?_mem hg

theorem slotUsed_false_elim {es : List TimetableEntry} {B : String} {d : Nat}
    {ps : List Nat}
    (h : (ps.any fun period => es.any fun e =>
      e.batchId == B && e.day == d && e.period == period) = false) :
    ∀ p ∈ ps, ∀ e ∈ es, ¬(e.batchId = B ∧ e.day = d ∧ e.period = p) := by
  intro p hp e he hc
  have h1 := List.any_eq_false.mp h p hp
  apply h1
  rw [List.any_eq_true]
  refine ⟨e, he, ?_⟩
  simp [hc.1, hc.2.1, hc.2.2]

/-- Every slot reported available has one of the two locked period windows
and none of its periods occupied for the batch. -/
theorem mem_getAvailableLabSlots {es : List TimetableEntry} {B : String}
    {sl : LabSession} (h : sl ∈ getAvailableLabSlots es B) :
    (sl.periods = LAB_SLOT_A ∨ sl.periods = LAB_SLOT_B) ∧
    ∀ p ∈ sl.periods, ∀ e ∈ es, ¬(e.batchId = B ∧ e.day = sl.day ∧ e.period = p) := by
  refine foldl_inv _
    (fun slots => ∀ sl ∈ slots,
      (sl.periods = LAB_SLOT_A ∨ sl.periods = LAB_SLOT_B) ∧
      ∀ p ∈ sl.periods, ∀ e ∈ es,
        ¬(e.batchId = B ∧ e.day = sl.day ∧ e.period = p))
    WORKING_DAYS [] (by simp) ?_ sl h
  intro slots day _ hP
  by_cases hA : (LAB_SLOT_A.any fun period => es.any fun e =>
      e.batchId == B && e.day == day && e.period == period) = true
  · by_cases hB : (LAB_SLOT_B.any fun period => es.any fun e =>
        e.batchId == B && e.day == day && e.period == period) = true
    · simpa [hA, hB] using hP
    · rw [Bool.not_eq_true] at hB
      intro x hx
      simp only [hA, hB, Bool.not_true, Bool.not_false, if_true, if_false] at hx
      rcases List.mem_append.mp hx with hx | hx
      · exact hP x hx
      · rcases List.mem_singleton.mp hx with rfl
        exact ⟨Or.inr rfl, slotUsed_false_elim hB⟩
  · rw [Bool.not_eq_true] at hA
    by_cases hB : (LAB_SLOT_B.any fun period => es.any fun e =>
        e.batchId == B && e.day == day && e.period == period) = true
    · intro x hx
      simp only [hA, hB, Bool.not_true, Bool.not_false, if_true, if_false] at hx
      rcases List.mem_append.mp hx with hx | hx
      · exact hP x hx
      · rcases List.mem_singleton.mp hx with rfl
        exact ⟨Or.inl rfl, slotUsed_false_elim hA⟩
    · rw [Bool.not_eq_true] at hB
      intro x hx
      simp only [hA, hB, Bool.not_true, Bool.not_false, if_true, if_false] at hx
      rcases List.mem_append.mp hx with hx | hx
      · rcases List.mem_append.mp hx with hx | hx
        · exact hP x hx
        · rcases List.mem_singleton.mp hx with rfl
          exact ⟨Or.inl rfl, slotUsed_false_elim hA⟩
      · rcases List.mem_singleton.mp hx with rfl
        exact ⟨Or.inr rfl, slotUsed_false_elim hB⟩

/-- Shape of an entry created inside one parallel lab session: it belongs
to the batch, is a lab entry for the session's subject at the session's
slot, and its sub-batch id avoids `avoid` (the ids still to process). -/
def SessionShape (B sid : String) (slot : LabSession) (avoid : List String)
    (e : TimetableEntry) : Prop :=
  e.batchId = B ∧ e.isLabSession = true ∧ e.subjectId = sid ∧
  e.day = slot.day ∧ e.period ∈ slot.periods ∧
  ∃ i, e.subBatchId = some i ∧ i ∉ avoid

theorem assignedFaculty_avail {cur : List TimetableEntry} {cand : Faculty}
    {lf : List Faculty} {d : Nat} {ps : List Nat} {f : Faculty}
    (h : (if isFacultyAvailableForSlot cur cand.id d ps then some cand
          else lf.find? fun g => isFacultyAvailableForSlot cur g.id d ps)
        = some f) :
    isFacultyAvailableForSlot cur f.id d ps = true := by
  split at h
  · cases h
    assumption
  · simpa using List.find?_some h

theorem getD_mem {α : Type} {l : List α} {i : Nat} (h : i < l.length) (d : α) :
    l.getD i d ∈ l := by
  rw [List.getD_eq_getElem?_getD, List.getElem?_eq_getElem h]
  exact List.getElem_mem h

theorem periods_nodup {slot : LabSession}
    (h : slot.periods = LAB_SLOT_A ∨ slot.periods = LAB_SLOT_B) :
    slot.periods.Nodup := by
  rcases h with h | h <;> rw [h] <;> decide

/-- Invariant of the `sortedSubBatches.forEach` fold inside one session of
the lab allocator (with empty pre-existing external entries, as in
`generateTimetable`): conflict-freeness is preserved and every created
entry has the session shape. -/
theorem labSubBatchStep_fold_inv (batch : Batch) (subject : Subject)
    (slot : LabSession) (deptLabs : List Lab) (labFaculty : List Faculty)
    (rot : List LabRotation) (sessionNumber : Nat)
    (pre : List TimetableEntry)
    (hpre2 : ∀ p ∈ slot.periods, ∀ e ∈ pre, ¬(e.day = slot.day ∧ e.period = p))
    (hpnd : slot.periods.Nodup) :
    ∀ (l : List (Nat × SubBatch)) (ses : List TimetableEntry)
      (rots : List LabRotation) (exps : List Explanation),
      ((l.map fun q => q.2.id).Nodup) →
      (pre ++ ses).Pairwise OkPair →
      (∀ e ∈ ses, SessionShape batch.id subject.id slot
        (l.map fun q => q.2.id) e) →
      ∃ ses',
        (l.foldl (labSubBatchStep batch subject slot deptLabs labFaculty
            [] rot sessionNumber) (pre ++ ses, rots, exps)).1 = pre ++ ses' ∧
        (pre ++ ses').Pairwise OkPair ∧
        (∀ e ∈ ses', SessionShape batch.id subject.id slot [] e) := by
  intro l
  induction l with
  | nil =>
    intro ses rots exps _ hpw hshape
    refine ⟨ses, rfl, hpw, ?_⟩
    intro e he
    obtain ⟨h1, h2, h3, h4, h5, i, h6, -⟩ := hshape e he
    exact ⟨h1, h2, h3, h4, h5, i, h6, by simp⟩
  | cons q l ih =>
    intro ses rots exps hnd hpw hshape
    obtain ⟨i, sb⟩ := q
    rw [List.map_cons, List.nodup_cons] at hnd
    rw [List.foldl_cons]
    rcases hfa : (if isFacultyAvailableForSlot ([] ++ (pre ++ ses))
          ((labFaculty.getD (i % labFaculty.length) default).id)
          slot.day slot.periods then
        some (labFaculty.getD (i % labFaculty.length) default)
      else labFaculty.find? fun f =>
        isFacultyAvailableForSlot ([] ++ (pre ++ ses)) f.id
          slot.day slot.periods) with - | f
    · have hstep : labSubBatchStep batch subject slot deptLabs labFaculty
          [] rot sessionNumber (pre ++ ses, rots, exps) (i, sb) =
          (pre ++ ses, rots, exps ++ [expl .WARNING .LAB_ALLOCATOR
            (some subject.id) (some 3)
            ("No available faculty for " ++ subject.name ++ " sub-batch " ++
              sb.name ++ ".")]) := by
        simp only [labSubBatchStep, hfa]
        rfl
      rw [hstep]
      refine ih ses rots _ hnd.2 hpw ?_
      intro e he
      obtain ⟨h1, h2, h3, h4, h5, j, h6, h7⟩ := hshape e he
      refine ⟨h1, h2, h3, h4, h5, j, h6, ?_⟩
      intro hj
      exact h7 (List.mem_cons_of_mem _ hj)
    · have havail := assignedFaculty_avail hfa
      rw [isFacultyAvailableForSlot_iff] at havail
      set lab := deptLabs.getD
        (match rot.find? fun r => r.batchId == batch.id &&
            r.subBatchId == sb.id with
          | some prev =>
            match deptLabs.findIdx? (fun lb => lb.id == prev.labId) with
            | some prevLabIndex => (prevLabIndex + 1) % deptLabs.length
            | none => 0
          | none => i % deptLabs.length) default with hlab
      have hstep : labSubBatchStep batch subject slot deptLabs labFaculty
          [] rot sessionNumber (pre ++ ses, rots, exps) (i, sb) =
          ((pre ++ ses) ++ (slot.periods.map fun period =>
            mkLabEntry batch subject f.id lab.id (some sb.id)
              slot.day period slot.slot),
           rots ++ [{ batchId := batch.id, subBatchId := sb.id,
                      sessionNumber := sessionNumber, labId := lab.id }],
           exps ++ [expl .INFO .LAB_ALLOCATOR (some batch.id) (some 3)
            ("Allocated " ++ subject.name ++ " for " ++ batch.name ++ "-" ++
              sb.name ++ " in " ++ lab.name ++ ".")]) := by
        simp only [labSubBatchStep, hfa, hlab]
        rfl
      rw [hstep]
      set newEntries := slot.periods.map fun period =>
        mkLabEntry batch subject f.id lab.id (some sb.id)
          slot.day period slot.slot with hnew
      have hshapeNew : ∀ e ∈ newEntries,
          SessionShape batch.id subject.id slot (l.map fun q => q.2.id) e := by
        intro e he
        rw [hnew, List.mem_map] at he
        obtain ⟨p, hp, rfl⟩ := he
        exact ⟨rfl, rfl, rfl, rfl, hp, sb.id, rfl, hnd.1⟩
      have hpw2 : ((pre ++ ses) ++ newEntries).Pairwise OkPair := by
        rw [List.pairwise_append]
        refine ⟨hpw, ?_, ?_⟩
        · rw [hnew, List.pairwise_map]
          refine List.Pairwise.imp ?_ hpnd
          intro p q hpq
          exact okPair_of_ne_period (by simpa [mkLabEntry] using hpq)
        · intro a ha b hb
          rw [hnew, List.mem_map] at hb
          obtain ⟨p, hp, rfl⟩ := hb
          rcases List.mem_append.mp ha with ha | ha
          · exact okPair_of_ne_slot fun hc =>
              hpre2 p hp a ha ⟨by simpa [mkLabEntry] using hc.1,
                by simpa [mkLabEntry] using hc.2⟩
          · obtain ⟨s1, s2, s3, s4, s5, j, s6, s7⟩ := hshape a ha
            intro hd hp2
            have hfne : a.facultyId ≠ f.id := by
              intro hfeq
              exact havail a.period s5 a (by simp [ha])
                ⟨hfeq, s4, rfl⟩
            refine ⟨?_, ?_, ?_⟩
            · intro _
              refine ⟨s2, rfl, ?_⟩
              rw [s6]
              simp only [mkLabEntry]
              intro hcon
              have : j = sb.id := by simpa using hcon
              exact s7 (this ▸ List.mem_cons_self _ _)
            · intro hfeq
              exact absurd (by simpa [mkLabEntry] using hfeq) hfne
            · intro _
              right
              refine ⟨s2, rfl, ?_⟩
              rw [s6]
              simp only [mkLabEntry]
              intro hcon
              have : j = sb.id := by simpa using hcon
              exact s7 (this ▸ List.mem_cons_self _ _)
      rw [List.append_assoc] at hpw2
      have hshapeAll : ∀ e ∈ ses ++ newEntries,
          SessionShape batch.id subject.id slot (l.map fun q => q.2.id) e := by
        intro e he
        rcases List.mem_append.mp he with he | he
        · obtain ⟨h1, h2, h3, h4, h5, j, h6, h7⟩ := hshape e he
          exact ⟨h1, h2, h3, h4, h5, j, h6,
            fun hj => h7 (List.mem_cons_of_mem _ hj)⟩
        · exact hshapeNew e he
      rw [List.append_assoc]
      exact ih (ses ++ newEntries)
        (rots ++ [{ batchId := batch.id, subBatchId := sb.id,
                    sessionNumber := sessionNumber, labId := lab.id }])
        (exps ++ [expl .INFO .LAB_ALLOCATOR (some batch.id) (some 3)
          ("Allocated " ++ subject.name ++ " for " ++ batch.name ++ "-" ++
            sb.name ++ " in " ++ lab.name ++ ".")])
        hnd.2 hpw2 hshapeAll

/-- Per-entry shape of lab-allocator output: batch-owned lab entries whose
subject is one of the scoped lab subjects. -/
def LabEntryShape (B : String) (subjects : List Subject)
    (e : TimetableEntry) : Prop :=
  e.batchId = B ∧ e.isLabSession = true ∧ ∃ s ∈ subjects, s.id = e.subjectId

theorem labLoop_inv (batch : Batch) (sortedLabSubjects : List Subject)
    (deptLabs : List Lab) (faculty : List Faculty) (rot : List LabRotation)
    (hnd : (batch.subBatches.map SubBatch.id).Nodup) :
    ∀ (fuel : Nat) (st : LabLoopState),
      st.entries.Pairwise OkPair →
      (∀ e ∈ st.entries, LabEntryShape batch.id sortedLabSubjects e) →
      ((labLoop batch sortedLabSubjects deptLabs faculty [] rot
          fuel st).entries.Pairwise OkPair ∧
       ∀ e ∈ (labLoop batch sortedLabSubjects deptLabs faculty [] rot
          fuel st).entries, LabEntryShape batch.id sortedLabSubjects e) := by
  intro fuel
  induction fuel with
  | zero =>
    intro st h1 h2
    exact ⟨h1, h2⟩
  | succ fuel ih =>
    intro st h1 h2
    simp only [labLoop]
    split
    case isFalse => exact ⟨h1, h2⟩
    case isTrue hcond =>
      rcases hfind : (getAvailableLabSlots ([] ++ st.entries) batch.id).find?
          (fun s => !st.usedSlots.contains (s.day, s.slot)) with - | slot
      · simp only [hfind]
        exact ⟨h1, h2⟩
      · simp only [hfind]
        have hslotmem := List.mem_of_find?_eq_some hfind
        obtain ⟨hper, havail⟩ := mem_getAvailableLabSlots hslotmem
        have havail2 : ∀ p ∈ slot.periods, ∀ e ∈ st.entries,
            ¬(e.day = slot.day ∧ e.period = p) := by
          intro p hp e he hc
          exact havail p hp e (by simpa using he)
            ⟨(h2 e he).1, hc.1, hc.2⟩
        have hlen : 0 < sortedLabSubjects.length := by
          have := hcond.1
          omega
        have hsubm : sortedLabSubjects.getD
            (st.subjectIndex % sortedLabSubjects.length) default
            ∈ sortedLabSubjects :=
          getD_mem (Nat.mod_lt _ hlen) default
        set subject := sortedLabSubjects.getD
          (st.subjectIndex % sortedLabSubjects.length) default with hsubj
        split
        case isTrue hlf =>
          exact ih _ h1 h2
        case isFalse hlf =>
          split
          case isTrue hmulti =>
            have hndsorted :
                (((sortOn SubBatch.id batch.subBatches).enum.map
                  fun q => q.2.id)).Nodup := by
              have he1 : ((sortOn SubBatch.id batch.subBatches).enum.map
                  fun q => q.2.id) =
                  (sortOn SubBatch.id batch.subBatches).map SubBatch.id := by
                have he2 := List.enum_map_snd (sortOn SubBatch.id batch.subBatches)
                calc ((sortOn SubBatch.id batch.subBatches).enum.map
                    fun q => q.2.id)
                    = (((sortOn SubBatch.id batch.subBatches).enum.map
                        Prod.snd).map SubBatch.id) := by
                      rw [List.map_map]
                      rfl
                  _ = _ := by rw [he2]
              rw [he1]
              exact (((sortOn_perm SubBatch.id batch.subBatches).map
                SubBatch.id).nodup_iff).mpr hnd
            obtain ⟨ses', hEq, hPW, hShape⟩ :=
              labSubBatchStep_fold_inv batch subject slot deptLabs
                (sortOn Faculty.id (faculty.filter fun f =>
                  f.assignedLabSubjects.contains subject.id))
                rot st.sessionNumber st.entries havail2 (periods_nodup hper)
                ((sortOn SubBatch.id batch.subBatches).enum) [] st.rotations
                st.explanations hndsorted (by simpa using h1) (by simp)
            rw [List.append_nil] at hEq
            have hShapeAll : ∀ e ∈ st.entries ++ ses',
                LabEntryShape batch.id sortedLabSubjects e := by
              intro e he
              rcases List.mem_append.mp he with he | he
              · exact h2 e he
              · obtain ⟨s1, s2, s3, -⟩ := hShape e he
                exact ⟨s1, s2, subject, hsubm, s3.symm⟩
            split
            case isTrue hstop =>
              dsimp only
              rw [hEq]
              exact ⟨hPW, hShapeAll⟩
            case isFalse hstop =>
              apply ih
              · dsimp only
                rw [hEq]
                exact hPW
              · dsimp only
                rw [hEq]
                exact hShapeAll
          case isFalse hmulti =>
            set newEntries := slot.periods.map fun period =>
              mkLabEntry batch subject
                ((sortOn Faculty.id (faculty.filter fun f =>
                  f.assignedLabSubjects.contains subject.id)).getD 0 default).id
                ((deptLabs.getD 0 default).id) none slot.day period slot.slot
              with hnewdef
            have hPW : (st.entries ++ newEntries).Pairwise OkPair := by
              rw [List.pairwise_append]
              refine ⟨h1, ?_, ?_⟩
              · rw [hnewdef, List.pairwise_map]
                refine List.Pairwise.imp ?_ (periods_nodup hper)
                intro p q hpq
                exact okPair_of_ne_period (by simpa [mkLabEntry] using hpq)
              · intro a ha b hb
                rw [hnewdef, List.mem_map] at hb
                obtain ⟨p, hp, rfl⟩ := hb
                exact okPair_of_ne_slot fun hc =>
                  havail2 p hp a ha ⟨by simpa [mkLabEntry] using hc.1,
                    by simpa [mkLabEntry] using hc.2⟩
            have hShapeAll : ∀ e ∈ st.entries ++ newEntries,
                LabEntryShape batch.id sortedLabSubjects e := by
              intro e he
              rcases List.mem_append.mp he with he | he
              · exact h2 e he
              · rw [hnewdef, List.mem_map] at he
                obtain ⟨p, hp, rfl⟩ := he
                exact ⟨rfl, rfl, subject, hsubm, rfl⟩
            split
            case isTrue hstop =>
              exact ⟨hPW, hShapeAll⟩
            case isFalse hstop =>
              exact ih _ hPW hShapeAll

/-- Conflict-freeness and entry shape of the whole lab allocator, as
invoked by the scheduler (no pre-existing entries). -/
theorem allocateLabs_inv (batch : Batch) (labSubjects : List Subject)
    (labs : List Lab) (faculty : List Faculty) (rot : List LabRotation)
    (hnd : (batch.subBatches.map SubBatch.id).Nodup) :
    (allocateLabsForBatch batch labSubjects labs faculty [] rot).entries.Pairwise
        OkPair ∧
    ∀ e ∈ (allocateLabsForBatch batch labSubjects labs faculty [] rot).entries,
      e.batchId = batch.id ∧ e.isLabSession = true ∧
      ∃ s ∈ labSubjects, s.id = e.subjectId := by
  have hloop := labLoop_inv batch
    (sortOn Subject.id (labSubjects.filter fun s =>
      s.departmentId == batch.departmentId && s.semester == batch.semester))
    (sortOn Lab.id (labs.filter fun l => l.departmentId == batch.departmentId))
    faculty rot hnd 13
    { entries := [], rotations := [], explanations := [],
      sessionNumber := 0, usedSlots := [], subjectIndex := 0 }
    (by simp) (by simp)
  have hconv : ∀ e, LabEntryShape batch.id
      (sortOn Subject.id (labSubjects.filter fun s =>
        s.departmentId == batch.departmentId &&
          s.semester == batch.semester)) e →
      e.batchId = batch.id ∧ e.isLabSession = true ∧
      ∃ s ∈ labSubjects, s.id = e.subjectId := by
    intro e he
    obtain ⟨s1, s2, s, hs, hsid⟩ := he
    exact ⟨s1, s2, s, (List.mem_filter.mp (mem_sortOn.mp hs)).1, hsid⟩
  simp only [allocateLabsForBatch]
  split
  · simp
  · split
    · simp
    · split
      · simp
      · split
        · dsimp only
          exact ⟨hloop.1, fun e he => hconv e (hloop.2 e he)⟩
        · dsimp only
          exact ⟨hloop.1, fun e he => hconv e (hloop.2 e he)⟩

theorem mandatoryAllowedDays_getD {i : Nat} (h : i < mandatoryAllowedDays.length) :
    mandatoryAllowedDays.getD i 0 = 0 ∨ mandatoryAllowedDays.getD i 0 = 1 := by
  simp only [mandatoryAllowedDays, List.length_cons, List.length_nil] at h
  interval_cases i
  · exact Or.inl rfl
  · exact Or.inr rfl

/-- Step-4 invariant: placed mandatory entries are batch-owned non-lab
entries at period 3 on Monday or Tuesday for a MANDATORY subject, and the
combined list stays conflict-free. -/
theorem placeMandatory_inv (batch : Batch) (subjects : List Subject)
    (faculty : List Faculty) (classrooms : List Classroom)
    (existing : List TimetableEntry)
    (hB : ∀ e ∈ existing, e.batchId = batch.id)
    (hpw : existing.Pairwise OkPair) :
    (existing ++ (placeMandatorySubjects batch subjects faculty classrooms
        existing).1).Pairwise OkPair ∧
    ∀ e ∈ (placeMandatorySubjects batch subjects faculty classrooms
        existing).1,
      e.batchId = batch.id ∧ e.isLabSession = false ∧ e.period = 3 ∧
      (e.day = 0 ∨ e.day = 1) ∧
      ∃ s ∈ subjects, s.id = e.subjectId ∧ s.type = .MANDATORY := by
  unfold placeMandatorySubjects
  have key := foldl_inv
    (mandatoryStep batch faculty classrooms existing)
    (fun acc =>
      (existing ++ acc.1).Pairwise OkPair ∧
      ∀ e ∈ acc.1,
        e.batchId = batch.id ∧ e.isLabSession = false ∧ e.period = 3 ∧
        (e.day = 0 ∨ e.day = 1) ∧
        ∃ s ∈ subjects, s.id = e.subjectId ∧ s.type = .MANDATORY)
    ((sortOn Subject.id (subjects.filter fun s =>
      decide (s.type = .MANDATORY) && s.departmentId == batch.departmentId &&
        s.semester == batch.semester)).enum)
    ([], []) (by simpa using hpw) ?_
  · exact key
  · rintro ⟨entries, exps⟩ ⟨index, subject⟩ hp ⟨hpw1, hsh⟩
    have hBall : ∀ e ∈ existing ++ entries, e.batchId = batch.id := by
      intro e he
      rcases List.mem_append.mp he with he | he
      · exact hB e he
      · exact (hsh e he).1
    have hsubj : subject ∈ subjects ∧ subject.type = .MANDATORY := by
      have hm := snd_mem_of_mem_enum hp
      have hf := List.mem_filter.mp (mem_sortOn.mp hm)
      refine ⟨hf.1, ?_⟩
      have := hf.2
      simp only [Bool.and_eq_true, decide_eq_true_eq] at this
      exact this.1.1
    simp only [mandatoryStep]
    split
    · exact ⟨hpw1, hsh⟩
    next hidx =>
      split
      · exact ⟨hpw1, hsh⟩
      next hslot =>
        split
        · exact ⟨hpw1, hsh⟩
        next af hfa =>
          split
          · exact ⟨hpw1, hsh⟩
          next hfree =>
            split
            · exact ⟨hpw1, hsh⟩
            next c hc =>
              have hslot2 : isSlotAvailable (existing ++ entries) batch.id
                  (mandatoryAllowedDays.getD index 0) 3 = true := by
                cases hX : isSlotAvailable (existing ++ entries) batch.id
                    (mandatoryAllowedDays.getD index 0) 3 with
                | true => rfl
                | false => exact absurd (by rw [hX]; rfl) hslot
              have hclash := no_slot_clash hBall hslot2
              constructor
              · rw [← List.append_assoc]
                refine pairwise_append_singleton hpw1 ?_
                intro a ha
                exact okPair_of_ne_slot fun hcc =>
                  hclash a ha ⟨by simpa [placeTheoryEntry] using hcc.1,
                    by simpa [placeTheoryEntry] using hcc.2⟩
              · intro e he
                rcases List.mem_append.mp he with he | he
                · exact hsh e he
                · rcases List.mem_singleton.mp he with rfl
                  exact ⟨rfl, rfl, rfl,
                    mandatoryAllowedDays_getD (by omega),
                    subject, hsubj.1, rfl, hsubj.2⟩

/-- Step-5 inner loop invariant: every placed entry passes the
batch/faculty/room availability gate, so conflict-freeness is preserved;
`Q` abstracts the per-subject payload. -/
theorem theoryLoop_inv (batch : Batch) (subject : Subject)
    (facultyId classroomId : String) (existing : List TimetableEntry)
    (target : Nat) (Q : TimetableEntry → Prop)
    (hQ : ∀ day period, Q (placeTheoryEntry batch subject facultyId
      classroomId day period)) :
    ∀ (fuel placed pIdx dIdx : Nat) (entries : List TimetableEntry),
      (existing ++ entries).Pairwise OkPair →
      (∀ e ∈ existing ++ entries, e.batchId = batch.id) →
      (∀ e ∈ entries, Q e) →
      ((existing ++ (theoryLoop batch subject facultyId classroomId existing
          target fuel placed pIdx dIdx entries).1).Pairwise OkPair ∧
       (∀ e ∈ existing ++ (theoryLoop batch subject facultyId classroomId
          existing target fuel placed pIdx dIdx entries).1,
         e.batchId = batch.id) ∧
       ∀ e ∈ (theoryLoop batch subject facultyId classroomId existing
          target fuel placed pIdx dIdx entries).1, Q e) := by
  intro fuel
  induction fuel with
  | zero =>
    intro placed pIdx dIdx entries hpw hBall hQall
    exact ⟨hpw, hBall, hQall⟩
  | succ fuel ih =>
    intro placed pIdx dIdx entries hpw hBall hQall
    simp only [theoryLoop]
    split
    · exact ⟨hpw, hBall, hQall⟩
    next hnotdone =>
      split
      next havail =>
        rw [Bool.and_eq_true, Bool.and_eq_true] at havail
        have hclash := no_slot_clash hBall havail.1.1
        have hpw2 : (existing ++ (entries ++ [placeTheoryEntry batch subject
            facultyId classroomId
            (WORKING_DAYS.getD (dIdx % WORKING_DAYS.length) 0)
            (theoryEligiblePeriods.getD
              (pIdx % theoryEligiblePeriods.length) 0)])).Pairwise OkPair := by
          rw [← List.append_assoc]
          refine pairwise_append_singleton hpw ?_
          intro a ha
          exact okPair_of_ne_slot fun hcc =>
            hclash a ha ⟨by simpa [placeTheoryEntry] using hcc.1,
              by simpa [placeTheoryEntry] using hcc.2⟩
        have hBall2 : ∀ e ∈ existing ++ (entries ++ [placeTheoryEntry batch
            subject facultyId classroomId
            (WORKING_DAYS.getD (dIdx % WORKING_DAYS.length) 0)
            (theoryEligiblePeriods.getD
              (pIdx % theoryEligiblePeriods.length) 0)]),
            e.batchId = batch.id := by
          intro e he
          rw [← List.append_assoc] at he
          rcases List.mem_append.mp he with he | he
          · exact hBall e he
          · rcases List.mem_singleton.mp he with rfl
            rfl
        have hQall2 : ∀ e ∈ entries ++ [placeTheoryEntry batch subject
            facultyId classroomId
            (WORKING_DAYS.getD (dIdx % WORKING_DAYS.length) 0)
            (theoryEligiblePeriods.getD
              (pIdx % theoryEligiblePeriods.length) 0)], Q e := by
          intro e he
          rcases List.mem_append.mp he with he | he
          · exact hQall e he
          · rcases List.mem_singleton.mp he with rfl
            exact hQ _ _
        exact ih _ _ _ _ hpw2 hBall2 hQall2
      next hnop =>
        exact ih _ _ _ _ hpw hBall hQall

/-- Step-5 invariant: theory entries are batch-owned non-lab entries for a
THEORY subject, and the combined list stays conflict-free. -/
theorem distributeTheory_inv (batch : Batch) (subjects : List Subject)
    (faculty : List Faculty) (classrooms : List Classroom)
    (existing : List TimetableEntry)
    (hB : ∀ e ∈ existing, e.batchId = batch.id)
    (hpw : existing.Pairwise OkPair) :
    (existing ++ (distributeTheorySubjects batch subjects faculty classrooms
        existing).1).Pairwise OkPair ∧
    ∀ e ∈ (distributeTheorySubjects batch subjects faculty classrooms
        existing).1,
      e.batchId = batch.id ∧ e.isLabSession = false ∧
      ∃ s ∈ subjects, s.id = e.subjectId ∧ s.type = .THEORY := by
  unfold distributeTheorySubjects
  have key := foldl_inv
    (theoryStep batch faculty classrooms existing)
    (fun acc =>
      (existing ++ acc.1).Pairwise OkPair ∧
      ∀ e ∈ acc.1,
        e.batchId = batch.id ∧ e.isLabSession = false ∧
        ∃ s ∈ subjects, s.id = e.subjectId ∧ s.type = .THEORY)
    (sortOn Subject.id (subjects.filter fun s =>
      decide (s.type = .THEORY) && s.departmentId == batch.departmentId &&
        s.semester == batch.semester))
    ([], [], 0) (by simpa using hpw) ?_
  · exact key
  · rintro ⟨entries, exps, gdi⟩ subject hp ⟨hpw1, hsh⟩
    have hBall : ∀ e ∈ existing ++ entries, e.batchId = batch.id := by
      intro e he
      rcases List.mem_append.mp he with he | he
      · exact hB e he
      · exact (hsh e he).1
    have hsubj : subject ∈ subjects ∧ subject.type = .THEORY := by
      have hf := List.mem_filter.mp (mem_sortOn.mp hp)
      refine ⟨hf.1, ?_⟩
      have := hf.2
      simp only [Bool.and_eq_true, decide_eq_true_eq] at this
      exact this.1.1
    simp only [theoryStep]
    split
    · exact ⟨hpw1, hsh⟩
    next af hfa =>
      split
      · exact ⟨hpw1, hsh⟩
      next c hc =>
        have hloop := theoryLoop_inv batch subject af.id c.id existing
          subject.periodsPerWeek
          (fun e => e.batchId = batch.id ∧ e.isLabSession = false ∧
            ∃ s ∈ subjects, s.id = e.subjectId ∧ s.type = .THEORY)
          (fun day period => ⟨rfl, rfl, subject, hsubj.1, rfl, hsubj.2⟩)
          (WORKING_DAYS.length * theoryEligiblePeriods.length * 2)
          0 0 gdi entries hpw1 hBall hsh
        split
        · exact ⟨hloop.1, hloop.2.2⟩
        · exact ⟨hloop.1, hloop.2.2⟩

theorem electiveAllowedDays_getD {i : Nat} (h : i < electiveAllowedDays.length) :
    electiveAllowedDays.getD i 0 = 0 ∨ electiveAllowedDays.getD i 0 = 1 ∨
      electiveAllowedDays.getD i 0 = 2 := by
  simp only [electiveAllowedDays, List.length_cons, List.length_nil] at h
  interval_cases i
  · exact Or.inl rfl
  · exact Or.inr (Or.inl rfl)
  · exact Or.inr (Or.inr rfl)

/-- Step-6 invariant: placed open electives are batch-owned non-lab
entries at period 1 on Monday-Wednesday for an OPEN_ELECTIVE subject, and
the combined list stays conflict-free. -/
theorem placeOpenElectives_inv (batch : Batch) (subjects : List Subject)
    (faculty : List Faculty) (classrooms : List Classroom)
    (existing : List TimetableEntry)
    (hB : ∀ e ∈ existing, e.batchId = batch.id)
    (hpw : existing.Pairwise OkPair) :
    (existing ++ (placeOpenElectives batch subjects faculty classrooms
        existing).1).Pairwise OkPair ∧
    ∀ e ∈ (placeOpenElectives batch subjects faculty classrooms
        existing).1,
      e.batchId = batch.id ∧ e.isLabSession = false ∧ e.period = 1 ∧
      (e.day = 0 ∨ e.day = 1 ∨ e.day = 2) ∧
      ∃ s ∈ subjects, s.id = e.subjectId ∧ s.type = .OPEN_ELECTIVE := by
  unfold placeOpenElectives
  have key := foldl_inv
    (electiveStep batch faculty classrooms existing)
    (fun acc =>
      (existing ++ acc.1).Pairwise OkPair ∧
      ∀ e ∈ acc.1,
        e.batchId = batch.id ∧ e.isLabSession = false ∧ e.period = 1 ∧
        (e.day = 0 ∨ e.day = 1 ∨ e.day = 2) ∧
        ∃ s ∈ subjects, s.id = e.subjectId ∧ s.type = .OPEN_ELECTIVE)
    ((sortOn Subject.id (subjects.filter fun s =>
      decide (s.type = .OPEN_ELECTIVE) && s.departmentId == batch.departmentId &&
        s.semester == batch.semester)).enum)
    ([], []) (by simpa using hpw) ?_
  · exact key
  · rintro ⟨entries, exps⟩ ⟨index, subject⟩ hp ⟨hpw1, hsh⟩
    have hBall : ∀ e ∈ existing ++ entries, e.batchId = batch.id := by
      intro e he
      rcases List.mem_append.mp he with he | he
      · exact hB e he
      · exact (hsh e he).1
    have hsubj : subject ∈ subjects ∧ subject.type = .OPEN_ELECTIVE := by
      have hm := snd_mem_of_mem_enum hp
      have hf := List.mem_filter.mp (mem_sortOn.mp hm)
      refine ⟨hf.1, ?_⟩
      have := hf.2
      simp only [Bool.and_eq_true, decide_eq_true_eq] at this
      exact this.1.1
    simp only [electiveStep]
    split
    · exact ⟨hpw1, hsh⟩
    next hidx =>
      split
      · exact ⟨hpw1, hsh⟩
      next hslot =>
        split
        · exact ⟨hpw1, hsh⟩
        next af hfa =>
          split
          · exact ⟨hpw1, hsh⟩
          next hfree =>
            split
            · exact ⟨hpw1, hsh⟩
            next c hc =>
              have hslot2 : isSlotAvailable (existing ++ entries) batch.id
                  (electiveAllowedDays.getD index 0) 1 = true := by
                cases hX : isSlotAvailable (existing ++ entries) batch.id
                    (electiveAllowedDays.getD index 0) 1 with
                | true => rfl
                | false => exact absurd (by rw [hX]; rfl) hslot
              have hclash := no_slot_clash hBall hslot2
              constructor
              · rw [← List.append_assoc]
                refine pairwise_append_singleton hpw1 ?_
                intro a ha
                exact okPair_of_ne_slot fun hcc =>
                  hclash a ha ⟨by simpa [placeTheoryEntry] using hcc.1,
                    by simpa [placeTheoryEntry] using hcc.2⟩
              · intro e he
                rcases List.mem_append.mp he with he | he
                · exact hsh e he
                · rcases List.mem_singleton.mp he with rfl
                  exact ⟨rfl, rfl, rfl,
                    electiveAllowedDays_getD (by omega),
                    subject, hsubj.1, rfl, hsubj.2⟩

/-- Step-7 invariant: the library auto-fill adds at most one batch-owned
entry, with empty faculty and room ids, for a LIBRARY subject, at a free
slot; the combined list stays conflict-free. -/
theorem autoFillLibrary_inv (batch : Batch) (subjects : List Subject)
    (existing : List TimetableEntry)
    (hB : ∀ e ∈ existing, e.batchId = batch.id)
    (hpw : existing.Pairwise OkPair) :
    (existing ++ (autoFillLibrary batch subjects existing).1).Pairwise OkPair ∧
    (autoFillLibrary batch subjects existing).1.length ≤ 1 ∧
    ∀ e ∈ (autoFillLibrary batch subjects existing).1,
      e.batchId = batch.id ∧ e.isLabSession = false ∧
      e.facultyId = "" ∧ e.roomId = "" ∧
      ∃ s ∈ subjects, s.id = e.subjectId ∧ s.type = .LIBRARY := by
  unfold autoFillLibrary
  split
  · exact ⟨by simpa using hpw, by simp, by simp⟩
  next ls hls =>
    have hsubj : ls ∈ subjects ∧ ls.type = .LIBRARY := by
      have hm := List.mem_of_mem_head? hls
      have hf := List.mem_filter.mp (mem_sortOn.mp hm)
      refine ⟨hf.1, ?_⟩
      have := hf.2
      simp only [Bool.and_eq_true, decide_eq_true_eq] at this
      exact this.1.1
    rcases hdp : ((WORKING_DAYS.map fun day =>
        libraryPeriods.map fun period => (day, period)).flatten).find?
        (fun dp => isSlotAvailable existing batch.id dp.1 dp.2) with - | dp
    · simp only [hdp]
      exact ⟨by simpa using hpw, by simp, by simp⟩
    · simp only [hdp]
      have hfree : isSlotAvailable existing batch.id dp.1 dp.2 = true := by
        simpa using List.find?_some hdp
      have hclash := no_slot_clash hB hfree
      refine ⟨?_, by simp, ?_⟩
      · refine pairwise_append_singleton hpw ?_
        intro a ha
        exact okPair_of_ne_slot fun hcc =>
          hclash a ha ⟨by simpa [mkLibraryEntry] using hcc.1,
            by simpa [mkLibraryEntry] using hcc.2⟩
      · intro e he
        rcases List.mem_singleton.mp he with rfl
        exact ⟨rfl, rfl, rfl, rfl, ls, hsubj.1, rfl, hsubj.2⟩

/-- On the success path, the produced timetable belongs to the looked-up
batch and its entries are the day/period-sorted step-7 accumulation. -/
theorem gen_success_entries (infrastructure : InfrastructureState)
    (academic : AcademicState) (batchId : String) (rot : List LabRotation)
    (now : Nat) (t : Timetable)
    (ht : (generateTimetable infrastructure academic batchId rot
      now).timetable = some t) :
    ∃ batch, academic.batches.find? (fun b => b.id == batchId) = some batch ∧
      t.batchId = batch.id ∧
      t.entries = (entriesThroughStep7 infrastructure academic batch
        rot).insertionSort entryOrder := by
  cases hv : (validateAll infrastructure academic).isValid with
  | false =>
    rw [generateTimetable, generateTimetableCore] at ht
    simp only [hv, Bool.not_false, if_true] at ht
    cases ht
  | true =>
    cases hfind : academic.batches.find? (fun b => b.id == batchId) with
    | none =>
      rw [generateTimetable, generateTimetableCore] at ht
      simp only [hv, hfind, Bool.not_true, Bool.false_eq_true, if_false] at ht
      cases ht
    | some batch =>
      refine ⟨batch, rfl, ?_⟩
      cases hl : (allocateLabsForBatch batch
          (academic.subjects.filter fun s => decide (s.type = .LAB))
          (infrastructure.labs.filter fun l =>
            l.departmentId == batch.departmentId)
          academic.faculty [] rot).success with
      | false =>
        rw [generateTimetable, generateTimetableCore] at ht
        simp only [hv, hfind, hl, Bool.not_true, Bool.not_false,
          Bool.false_eq_true, if_false, if_true] at ht
        cases ht
      | true =>
        cases hw : hasWorkloadViolation academic.faculty academic.subjects
            (entriesThroughStep7 infrastructure academic batch rot) with
        | true =>
          rw [generateTimetable, generateTimetableCore] at ht
          simp only [entriesThroughStep7, List.append_assoc] at hw
          simp only [hv, hfind, hl, hw, Bool.not_true, Bool.not_false,
            Bool.false_eq_true, if_false, if_true, List.append_assoc] at ht
          cases ht
        | false =>
          rw [generateTimetable, generateTimetableCore] at ht
          simp only [entriesThroughStep7, List.append_assoc] at hw
          simp only [hv, hfind, hl, hw, Bool.not_true, Bool.not_false,
            Bool.false_eq_true, if_false, if_true, List.append_assoc] at ht
          rw [Option.some.injEq] at ht
          subst ht
          constructor
          · rfl
          · simp only [entriesThroughStep7, List.append_assoc]

/-- Decomposition of the step-7 accumulation: a conflict-free list of
batch-owned entries originating from the four subject-placement phases,
followed by at most one library entry. -/
theorem entriesThroughStep7_decomp (infrastructure : InfrastructureState)
    (academic : AcademicState) (batch : Batch) (rot : List LabRotation)
    (hnd : (batch.subBatches.map SubBatch.id).Nodup) :
    ∃ pre lib,
      entriesThroughStep7 infrastructure academic batch rot = pre ++ lib ∧
      (pre ++ lib).Pairwise OkPair ∧
      lib.length ≤ 1 ∧
      (∀ e ∈ pre, e.batchId = batch.id ∧
        ((e.isLabSession = true ∧
            ∃ s ∈ academic.subjects, s.id = e.subjectId ∧ s.type = .LAB) ∨
         (e.isLabSession = false ∧ e.period = 3 ∧ (e.day = 0 ∨ e.day = 1) ∧
            ∃ s ∈ academic.subjects, s.id = e.subjectId ∧ s.type = .MANDATORY) ∨
         (e.isLabSession = false ∧
            ∃ s ∈ academic.subjects, s.id = e.subjectId ∧ s.type = .THEORY) ∨
         (e.isLabSession = false ∧ e.period = 1 ∧
            (e.day = 0 ∨ e.day = 1 ∨ e.day = 2) ∧
            ∃ s ∈ academic.subjects, s.id = e.subjectId ∧
              s.type = .OPEN_ELECTIVE))) ∧
      (∀ e ∈ lib, e.batchId = batch.id ∧ e.facultyId = "" ∧ e.roomId = "" ∧
        ∃ s ∈ academic.subjects, s.id = e.subjectId ∧ s.type = .LIBRARY) := by
  have L := allocateLabs_inv batch
    (academic.subjects.filter fun s => decide (s.type = .LAB))
    (infrastructure.labs.filter fun l => l.departmentId == batch.departmentId)
    academic.faculty rot hnd
  set e3 := (allocateLabsForBatch batch
    (academic.subjects.filter fun s => decide (s.type = .LAB))
    (infrastructure.labs.filter fun l => l.departmentId == batch.departmentId)
    academic.faculty [] rot).entries with he3
  have hB3 : ∀ e ∈ e3, e.batchId = batch.id := fun e he => (L.2 e he).1
  have M := placeMandatory_inv batch academic.subjects academic.faculty
    infrastructure.classrooms e3 hB3 L.1
  set m1 := (placeMandatorySubjects batch academic.subjects academic.faculty
    infrastructure.classrooms e3).1 with hm1
  have hB4 : ∀ e ∈ e3 ++ m1, e.batchId = batch.id := by
    intro e he
    rcases List.mem_append.mp he with he | he
    · exact hB3 e he
    · exact (M.2 e he).1
  have T := distributeTheory_inv batch academic.subjects academic.faculty
    infrastructure.classrooms (e3 ++ m1) hB4 M.1
  set t1 := (distributeTheorySubjects batch academic.subjects academic.faculty
    infrastructure.classrooms (e3 ++ m1)).1 with ht1
  have hB5 : ∀ e ∈ e3 ++ m1 ++ t1, e.batchId = batch.id := by
    intro e he
    rcases List.mem_append.mp he with he | he
    · exact hB4 e he
    · exact (T.2 e he).1
  have E := placeOpenElectives_inv batch academic.subjects academic.faculty
    infrastructure.classrooms (e3 ++ m1 ++ t1) hB5 T.1
  set el1 := (placeOpenElectives batch academic.subjects academic.faculty
    infrastructure.classrooms (e3 ++ m1 ++ t1)).1 with hel1
  have hB6 : ∀ e ∈ e3 ++ m1 ++ t1 ++ el1, e.batchId = batch.id := by
    intro e he
    rcases List.mem_append.mp he with he | he
    · exact hB5 e he
    · exact (E.2 e he).1
  have Lib := autoFillLibrary_inv batch academic.subjects
    (e3 ++ m1 ++ t1 ++ el1) hB6 E.1
  set lib1 := (autoFillLibrary batch academic.subjects
    (e3 ++ m1 ++ t1 ++ el1)).1 with hlib1
  refine ⟨e3 ++ m1 ++ t1 ++ el1, lib1, ?_, Lib.1, Lib.2.1, ?_, ?_⟩
  · simp only [entriesThroughStep7, ← he3, ← hm1, ← ht1, ← hel1, ← hlib1]
  · intro e he
    rcases List.mem_append.mp he with he | he
    · rcases List.mem_append.mp he with he | he
      · rcases List.mem_append.mp he with he | he
        · obtain ⟨h1, h2, s, hs, hsid⟩ := L.2 e he
          have hf := List.mem_filter.mp hs
          refine ⟨h1, Or.inl ⟨h2, s, hf.1, hsid, ?_⟩⟩
          have := hf.2
          simpa using this
        · obtain ⟨h1, h2, h3, h4, s, hs, hsid, hst⟩ := M.2 e he
          exact ⟨h1, Or.inr (Or.inl ⟨h2, h3, h4, s, hs, hsid, hst⟩)⟩
      · obtain ⟨h1, h2, s, hs, hsid, hst⟩ := T.2 e he
        exact ⟨h1, Or.inr (Or.inr (Or.inl ⟨h2, s, hs, hsid, hst⟩))⟩
    · obtain ⟨h1, h2, h3, h4, s, hs, hsid, hst⟩ := E.2 e he
      exact ⟨h1, Or.inr (Or.inr (Or.inr ⟨h2, h3, h4, s, hs, hsid, hst⟩))⟩
  · intro e he
    obtain ⟨h1, h2, h3, h4, s, hs, hsid, hst⟩ := Lib.2.2 e he
    exact ⟨h1, h3, h4, s, hs, hsid, hst⟩

/-- C1. The claim's strict conflict-freedom is FALSE as stated: on a valid
two-sub-batch input the engine succeeds, yet the parallel step-3 lab
sessions of the two sub-batches share (batchId, day, period) (and here also
(roomId, day, period)). The claim holds only in the amended form
`generateTimetable_conflictFree` below, which tolerates exactly those
parallel sub-batch lab pairs. -/
theorem generateTimetable_conflictFree_counterexample :
    (generateTimetable testInfra testAcadTwoSB "bat" [] 0).success = true ∧
    ¬ (((generateTimetable testInfra testAcadTwoSB "bat" [] 0).timetable.map
        Timetable.entries).getD []).Pairwise StrictOkPair := by
  constructor
  · decide
  · decide

/-- C1 (amended). For every successful run on a snapshot whose batches have
duplicate-free sub-batch ids, the produced entries are pairwise
conflict-free in the amended sense: coinciding (batchId, day, period) or
(roomId, day, period) keys occur only between lab entries of two distinct
sub-batches, and no two entries share (facultyId, day, period) with a
non-empty faculty id. -/
theorem generateTimetable_conflictFree (infrastructure : InfrastructureState)
    (academic : AcademicState) (batchId : String) (rot : List LabRotation)
    (now : Nat) (t : Timetable)
    (hnd : ∀ b ∈ academic.batches, (b.subBatches.map SubBatch.id).Nodup)
    (ht : (generateTimetable infrastructure academic batchId rot
      now).timetable = some t) :
    t.entries.Pairwise OkPair := by
  obtain ⟨batch, hfind, -, hent⟩ :=
    gen_success_entries infrastructure academic batchId rot now t ht
  have hbatch : batch ∈ academic.batches := List.mem_of_find?_eq_some hfind
  obtain ⟨pre, lib, heq, hpw, -, -, -⟩ :=
    entriesThroughStep7_decomp infrastructure academic batch rot
      (hnd batch hbatch)
  rw [hent, heq]
  have hperm : ((pre ++ lib).insertionSort entryOrder).Perm (pre ++ lib) :=
    List.perm_insertionSort _ _
  exact (hperm.pairwise_iff fun {a b} h => okPair_symm h).mpr hpw

theorem generateTimetable_conflictFree_witness :
    (∀ b ∈ testAcadTwoSB.batches, (b.subBatches.map SubBatch.id).Nodup) ∧
    ∃ t, (generateTimetable testInfra testAcadTwoSB "bat" [] 0).timetable =
        some t ∧ t.entries.Pairwise OkPair := by
  refine ⟨by decide, ?_⟩
  cases htt : (generateTimetable testInfra testAcadTwoSB "bat" [] 0).timetable with
  | none =>
    have hs : (generateTimetable testInfra testAcadTwoSB "bat"
        [] 0).timetable.isSome = true := by decide
    rw [htt] at hs
    cases hs
  | some t =>
    exact ⟨t, rfl, generateTimetable_conflictFree testInfra testAcadTwoSB
      "bat" [] 0 t (by decide) htt⟩

/-- C7. In every generated timetable (on a snapshot with duplicate-free
sub-batch ids per batch and duplicate-free subject ids), every entry of a
MANDATORY subject sits at period 3 on day 0 or 1, every entry of an
OPEN_ELECTIVE subject sits at period 1 on day 0, 1 or 2, and at most one
entry belongs to a LIBRARY subject. -/
theorem generateTimetable_placementRules (infrastructure : InfrastructureState)
    (academic : AcademicState) (batchId : String) (rot : List LabRotation)
    (now : Nat) (t : Timetable)
    (hnd : ∀ b ∈ academic.batches, (b.subBatches.map SubBatch.id).Nodup)
    (hns : (academic.subjects.map Subject.id).Nodup)
    (ht : (generateTimetable infrastructure academic batchId rot
      now).timetable = some t) :
    (∀ e ∈ t.entries, ∀ s ∈ academic.subjects, s.id = e.subjectId →
      (s.type = SubjectType.MANDATORY →
        e.period = 3 ∧ (e.day = 0 ∨ e.day = 1)) ∧
      (s.type = SubjectType.OPEN_ELECTIVE →
        e.period = 1 ∧ (e.day = 0 ∨ e.day = 1 ∨ e.day = 2))) ∧
    (t.entries.filter fun e => academic.subjects.any fun s =>
      s.id == e.subjectId && decide (s.type = SubjectType.LIBRARY)).length
      ≤ 1 := by
  obtain ⟨batch, hfind, -, hent⟩ :=
    gen_success_entries infrastructure academic batchId rot now t ht
  have hbatch : batch ∈ academic.batches := List.mem_of_find?_eq_some hfind
  obtain ⟨pre, lib, heq, -, hlen, hpre, hlib⟩ :=
    entriesThroughStep7_decomp infrastructure academic batch rot
      (hnd batch hbatch)
  have hperm : t.entries.Perm (pre ++ lib) := by
    rw [hent, heq]
    exact List.perm_insertionSort _ _
  have hinj := List.inj_on_of_nodup_map hns
  constructor
  · intro e he s hs hsid
    have he' : e ∈ pre ++ lib := hperm.mem_iff.mp he
    rcases List.mem_append.mp he' with he'' | he''
    · obtain ⟨-, horig⟩ := hpre e he''
      rcases horig with ⟨-, s0, hs0, hid0, hty0⟩ |
          ⟨-, hp, hd, s0, hs0, hid0, hty0⟩ |
          ⟨-, s0, hs0, hid0, hty0⟩ |
          ⟨-, hp, hd, s0, hs0, hid0, hty0⟩ <;>
        have hss : s = s0 := hinj hs hs0 (hsid.trans hid0.symm)
      · constructor
        · intro hman
          rw [hss, hty0] at hman
          cases hman
        · intro hoe
          rw [hss, hty0] at hoe
          cases hoe
      · refine ⟨fun _ => ⟨hp, hd⟩, ?_⟩
        intro hoe
        rw [hss, hty0] at hoe
        cases hoe
      · constructor
        · intro hman
          rw [hss, hty0] at hman
          cases hman
        · intro hoe
          rw [hss, hty0] at hoe
          cases hoe
      · refine ⟨?_, fun _ => ⟨hp, hd⟩⟩
        intro hman
        rw [hss, hty0] at hman
        cases hman
    · obtain ⟨-, -, -, s0, hs0, hid0, hty0⟩ := hlib e he''
      have hss : s = s0 := hinj hs hs0 (hsid.trans hid0.symm)
      constructor
      · intro hman
        rw [hss, hty0] at hman
        cases hman
      · intro hoe
        rw [hss, hty0] at hoe
        cases hoe
  · have hfl : (t.entries.filter fun e => academic.subjects.any fun s =>
        s.id == e.subjectId && decide (s.type = SubjectType.LIBRARY)).length =
        ((pre ++ lib).filter fun e => academic.subjects.any fun s =>
          s.id == e.subjectId && decide (s.type = SubjectType.LIBRARY)).length :=
      (hperm.filter _).length_eq
    rw [hfl, List.filter_append, List.length_append]
    have hpre0 : (pre.filter fun e => academic.subjects.any fun s =>
        s.id == e.subjectId && decide (s.type = SubjectType.LIBRARY)) = [] := by
      rw [List.filter_eq_nil_iff]
      intro e he hlibe
      obtain ⟨s, hs, hb⟩ := List.any_eq_true.mp hlibe
      rw [Bool.and_eq_true, beq_iff_eq, decide_eq_true_iff] at hb
      obtain ⟨-, horig⟩ := hpre e he
      rcases horig with ⟨-, s0, hs0, hid0, hty0⟩ |
          ⟨-, -, -, s0, hs0, hid0, hty0⟩ |
          ⟨-, s0, hs0, hid0, hty0⟩ |
          ⟨-, -, -, s0, hs0, hid0, hty0⟩ <;>
        · have hss : s = s0 := hinj hs hs0 (hb.1.trans hid0.symm)
          rw [hss, hty0] at hb
          cases hb.2
    rw [hpre0]
    simp only [List.length_nil, Nat.zero_add]
    exact le_trans (List.length_filter_le _ _) hlen

theorem generateTimetable_placementRules_witness :
    (∀ b ∈ testAcadTwoSB.batches, (b.subBatches.map SubBatch.id).Nodup) ∧
    (testAcadTwoSB.subjects.map Subject.id).Nodup ∧
    ∃ t, (generateTimetable testInfra testAcadTwoSB "bat" [] 0).timetable =
        some t ∧
      (t.entries.filter fun e => testAcadTwoSB.subjects.any fun s =>
        s.id == e.subjectId &&
          decide (s.type = SubjectType.LIBRARY)).length ≤ 1 := by
  refine ⟨by decide, by decide, ?_⟩
  cases htt : (generateTimetable testInfra testAcadTwoSB "bat" [] 0).timetable with
  | none =>
    have hs : (generateTimetable testInfra testAcadTwoSB "bat"
        [] 0).timetable.isSome = true := by decide
    rw [htt] at hs
    cases hs
  | some t =>
    exact ⟨t, rfl, (generateTimetable_placementRules testInfra testAcadTwoSB
      "bat" [] 0 t (by decide) (by decide) htt).2⟩
